import Mathlib

/-!
Verification development for the Arabic programming-learning backend
(`src/main.py`).  The session store, the progress state machine, the quiz
and challenge caches, the brace-scanning JSON extractor and the
content-generation fallbacks are embedded shallowly as pure Lean
functions.  The external LLM is modelled as a parameter: every operation
that awaits a model call takes the model's raw reply as an
`Option (List Char)` argument (`none` models a failed model call, `some
txt` a reply with text `txt`).  Python strings are modelled as `List
Char`, Python dicts as association lists with first-match lookup, and
Python's float score arithmetic as exact rational arithmetic.
-/

namespace ArabicLearn

/-- Python strings are modelled as lists of characters. -/
abbrev Str := List Char

/-- Coerce a Lean string literal to the `Str` model. -/
def str (s : String) : Str := s.data

/-- The `\x7b` character (left curly brace). -/
def lbrace : Char := Char.ofNat 123

/-- The `\x7d` character (right curly brace). -/
def rbrace : Char := Char.ofNat 125

/-- Characters removed by Python's `str.strip()` (ASCII whitespace). -/
def isPyWs (c : Char) : Bool :=
  c = ' ' ∨ c = Char.ofNat 9 ∨ c = Char.ofNat 10 ∨ c = Char.ofNat 13 ∨
  c = Char.ofNat 11 ∨ c = Char.ofNat 12

/-- Python `str.strip()`: drop whitespace from both ends. -/
def pyStrip (s : Str) : Str :=
  ((s.dropWhile isPyWs).reverse.dropWhile isPyWs).reverse

/-- JSON whitespace accepted between tokens by `json.loads`. -/
def isJsonWs (c : Char) : Bool :=
  c = ' ' ∨ c = Char.ofNat 9 ∨ c = Char.ofNat 10 ∨ c = Char.ofNat 13

def skipWs (s : Str) : Str := s.dropWhile isJsonWs

/-- Parsed JSON documents, as produced by Python's `json.loads`.
Numbers are kept exact as `mantissa * 10 ^ exponent` (the NaN/Infinity
extension of the Python decoder and binary-float rounding are not
modelled; no claim depends on them). -/
inductive Json where
  | null
  | jbool (b : Bool)
  | jnum (m : Int) (e : Int)
  | jstr (s : Str)
  | jarr (elems : List Json)
  | jobj (fields : List (Str × Json))

/-- Python dict write `d[k] = v` on an association list: value of the
first occurrence of `k` is replaced in place, otherwise the pair is
appended (matching insertion-order semantics of Python dicts). -/
def setKey : List (Str × Json) → Str → Json → List (Str × Json)
  | [], k, v => [(k, v)]
  | (k', v') :: rest, k, v =>
    if k' = k then (k, v) :: rest else (k', v') :: setKey rest k v

/-- Python `d.get(k, default)` on a parsed JSON value: `none` models the
`AttributeError` raised when the receiver is not a dict. -/
def pyGetD (j : Json) (k : Str) (default : Json) : Option Json :=
  match j with
  | Json.jobj fs => some ((fs.lookup k).getD default)
  | _ => none

/-- Python `d[k]` subscription on a parsed JSON value: `none` models the
`KeyError`/`TypeError` raised when the key is missing or the receiver is
not a dict. -/
def pySubscr (j : Json) (k : Str) : Option Json :=
  match j with
  | Json.jobj fs => fs.lookup k
  | _ => none

/-- Python `k in d` membership test on a parsed JSON value. -/
def pyHasKey (j : Json) (k : Str) : Bool :=
  match j with
  | Json.jobj fs => (fs.lookup k).isSome
  | _ => false

/-- Python truthiness of a parsed JSON value. -/
def pyTruthy (j : Json) : Bool :=
  match j with
  | Json.null => false
  | Json.jbool b => b
  | Json.jnum m _ => m ≠ 0
  | Json.jstr s => !s.isEmpty
  | Json.jarr xs => !xs.isEmpty
  | Json.jobj fs => !fs.isEmpty

/-- Python `len()` of a parsed JSON value: `none` models the `TypeError`
raised on unsized values. -/
def pyLen (j : Json) : Option Nat :=
  match j with
  | Json.jstr s => some s.length
  | Json.jarr xs => some xs.length
  | Json.jobj fs => some fs.length
  | _ => none

/-- Python list indexing `xs[i]`, including negative indices counted
from the end; `none` models the `IndexError`. -/
def pyIndex (xs : List Json) (i : Int) : Option Json :=
  if 0 ≤ i then xs[i.toNat]?
  else if 0 ≤ i + xs.length then xs[(i + xs.length).toNat]?
  else none

/-- Python `==` between an int and a decoded JSON value (`True == 1` and
`False == 0` hold because `bool` is an `int` subclass; numbers compare
by exact value). -/
def pyIntEq (n : Int) (j : Json) : Bool :=
  match j with
  | Json.jnum m e =>
    if 0 ≤ e then m * (10 : Int) ^ e.toNat = n else m = n * (10 : Int) ^ (-e).toNat
  | Json.jbool b => n = (if b then 1 else 0)
  | _ => false

/-- Python `str()` of a decoded JSON value, used only to interpolate a
value into fallback prose; container rendering is abbreviated and no
claim depends on its exact form. -/
def pyStr (j : Json) : Str :=
  match j with
  | Json.jstr s => s
  | Json.null => str "None"
  | Json.jbool true => str "True"
  | Json.jbool false => str "False"
  | Json.jnum m e => (toString m).data ++ (if e = 0 then [] else str "e" ++ (toString e).data)
  | Json.jarr _ => str "[...]"
  | Json.jobj _ => str "\x7b...\x7d"

/-! ### The JSON decoder (model of `json.loads`)

A strict recursive-descent parser for RFC 8259 JSON, fuelled by the
input length.  Duplicate object keys keep the first position and the
last value, as Python's decoder does. -/

def hexVal (c : Char) : Option Nat :=
  if '0' ≤ c ∧ c ≤ '9' then some (c.toNat - '0'.toNat)
  else if 'a' ≤ c ∧ c ≤ 'f' then some (c.toNat - 'a'.toNat + 10)
  else if 'A' ≤ c ∧ c ≤ 'F' then some (c.toNat - 'A'.toNat + 10)
  else none

def parseHex4 : Str → Option (Nat × Str)
  | c1 :: c2 :: c3 :: c4 :: rest =>
    match hexVal c1, hexVal c2, hexVal c3, hexVal c4 with
    | some h1, some h2, some h3, some h4 =>
      some (((h1 * 16 + h2) * 16 + h3) * 16 + h4, rest)
    | _, _, _, _ => none
  | _ => none

/-- Decode one string escape after a backslash.  Surrogate pairs are
combined as Python does; an unpaired surrogate is mapped to the
replacement character (Lean chars are scalar values). -/
def parseEscape : Str → Option (Char × Str)
  | [] => none
  | c :: rest =>
    if c = '"' then some ('"', rest)
    else if c = '\\' then some ('\\', rest)
    else if c = '/' then some ('/', rest)
    else if c = 'b' then some (Char.ofNat 8, rest)
    else if c = 'f' then some (Char.ofNat 12, rest)
    else if c = 'n' then some (Char.ofNat 10, rest)
    else if c = 'r' then some (Char.ofNat 13, rest)
    else if c = 't' then some (Char.ofNat 9, rest)
    else if c = 'u' then
      match parseHex4 rest with
      | none => none
      | some (h, rest1) =>
        if 0xD800 ≤ h ∧ h ≤ 0xDBFF then
          match rest1 with
          | '\\' :: 'u' :: rest2 =>
            match parseHex4 rest2 with
            | some (lo, rest3) =>
              if 0xDC00 ≤ lo ∧ lo ≤ 0xDFFF then
                some (Char.ofNat (0x10000 + (h - 0xD800) * 0x400 + (lo - 0xDC00)), rest3)
              else some (Char.ofNat 0xFFFD, rest1)
            | none => some (Char.ofNat 0xFFFD, rest1)
          | _ => some (Char.ofNat 0xFFFD, rest1)
        else if 0xDC00 ≤ h ∧ h ≤ 0xDFFF then some (Char.ofNat 0xFFFD, rest1)
        else some (Char.ofNat h, rest1)
    else none

/-- Decode a string body after the opening quote (strict mode: raw
control characters are rejected). -/
def parseStringBody : Nat → Str → Option (Str × Str)
  | 0, _ => none
  | _, [] => none
  | fuel + 1, c :: rest =>
    if c = '"' then some ([], rest)
    else if c = '\\' then
      match parseEscape rest with
      | none => none
      | some (d, rest1) =>
        match parseStringBody fuel rest1 with
        | none => none
        | some (s, rest2) => some (d :: s, rest2)
    else if c.toNat < 32 then none
    else
      match parseStringBody fuel rest with
      | none => none
      | some (s, rest2) => some (c :: s, rest2)

def isDigit (c : Char) : Bool := '0' ≤ c ∧ c ≤ '9'

def digitsVal (acc : Int) : Str → Int
  | [] => acc
  | c :: rest => digitsVal (acc * 10 + (c.toNat - '0'.toNat : Nat)) rest

/-- Parse the integer part of a JSON number (`0` or a nonzero digit
followed by digits). -/
def parseIntPart (s : Str) : Option (Str × Str) :=
  match s with
  | [] => none
  | c :: rest =>
    if c = '0' then some ([c], rest)
    else if isDigit c then
      let digits := rest.takeWhile isDigit
      some (c :: digits, rest.drop digits.length)
    else none

/-- Parse the optional fraction part; a dot not followed by a digit is
a syntax error. -/
def parseFracPart (s : Str) : Option (Str × Str) :=
  match s with
  | '.' :: r =>
    let ds := r.takeWhile isDigit
    if ds.isEmpty then none else some (ds, r.drop ds.length)
  | _ => some ([], s)

/-- Parse the optional exponent part.  An `e` not followed by digits is
left unconsumed; the dangling `e` then makes the surrounding parse
fail, as in Python. -/
def parseExpPart (s : Str) : Int × Str :=
  match s with
  | c :: r =>
    if c = 'e' ∨ c = 'E' then
      match r with
      | '+' :: r2 =>
        let ds := r2.takeWhile isDigit
        if ds.isEmpty then ((0 : Int), s) else (digitsVal 0 ds, r2.drop ds.length)
      | '-' :: r2 =>
        let ds := r2.takeWhile isDigit
        if ds.isEmpty then ((0 : Int), s) else (-(digitsVal 0 ds), r2.drop ds.length)
      | _ =>
        let ds := r.takeWhile isDigit
        if ds.isEmpty then ((0 : Int), s) else (digitsVal 0 ds, r.drop ds.length)
    else ((0 : Int), s)
  | [] => ((0 : Int), s)

/-- Parse a JSON number, returning its exact value `m * 10 ^ e`. -/
def parseNumber (s : Str) : Option (Json × Str) :=
  let (neg, s1) := match s with
    | '-' :: rest => (true, rest)
    | _ => (false, s)
  match parseIntPart s1 with
  | none => none
  | some (ip, rest1) =>
    match parseFracPart rest1 with
    | none => none
    | some (fr, rest2) =>
      let (ex, rest3) := parseExpPart rest2
      let mantissa := digitsVal 0 (ip ++ fr)
      some (Json.jnum (if neg then -mantissa else mantissa) (ex - fr.length), rest3)

mutual

def parseValue : Nat → Str → Option (Json × Str)
  | 0, _ => none
  | fuel + 1, s =>
    match s with
    | [] => none
    | c :: rest =>
      if c = lbrace then
        let rest1 := skipWs rest
        match rest1 with
        | d :: rest2 =>
          if d = rbrace then some (Json.jobj [], rest2)
          else parseMembers fuel [] rest1
        | [] => none
      else if c = '[' then
        let rest1 := skipWs rest
        match rest1 with
        | ']' :: rest2 => some (Json.jarr [], rest2)
        | _ => parseElems fuel [] rest1
      else if c = '"' then
        match parseStringBody (rest.length + 1) rest with
        | some (txt, rest1) => some (Json.jstr txt, rest1)
        | none => none
      else if c = 't' then
        match rest with
        | 'r' :: 'u' :: 'e' :: rest1 => some (Json.jbool true, rest1)
        | _ => none
      else if c = 'f' then
        match rest with
        | 'a' :: 'l' :: 's' :: 'e' :: rest1 => some (Json.jbool false, rest1)
        | _ => none
      else if c = 'n' then
        match rest with
        | 'u' :: 'l' :: 'l' :: rest1 => some (Json.null, rest1)
        | _ => none
      else parseNumber s

/-- Parse object members (at a position expecting a key). -/
def parseMembers : Nat → List (Str × Json) → Str → Option (Json × Str)
  | 0, _, _ => none
  | fuel + 1, acc, s =>
    match s with
    | '"' :: rest =>
      match parseStringBody (rest.length + 1) rest with
      | none => none
      | some (k, rest1) =>
        match skipWs rest1 with
        | ':' :: rest2 =>
          match parseValue fuel (skipWs rest2) with
          | none => none
          | some (v, rest3) =>
            let acc' := setKey acc k v
            match skipWs rest3 with
            | ',' :: rest4 => parseMembers fuel acc' (skipWs rest4)
            | d :: rest4 =>
              if d = rbrace then some (Json.jobj acc', rest4) else none
            | [] => none
        | _ => none
    | _ => none

/-- Parse array elements (at a position expecting a value). -/
def parseElems : Nat → List Json → Str → Option (Json × Str)
  | 0, _, _ => none
  | fuel + 1, acc, s =>
    match parseValue fuel s with
    | none => none
    | some (v, rest) =>
      match skipWs rest with
      | ',' :: rest1 => parseElems fuel (acc ++ [v]) (skipWs rest1)
      | ']' :: rest1 => some (Json.jarr (acc ++ [v]), rest1)
      | _ => none

end

/-- Model of Python `json.loads`: decode a full document, requiring only
whitespace after the value. -/
def json_loads (s : Str) : Option Json :=
  match parseValue (s.length + 1) (skipWs s) with
  | some (j, rest) => if skipWs rest = [] then some j else none
  | none => none

/-! ### The Response Extractor (`clean_json_response`) -/

/-- Strip the markdown fences exactly as the source does: remove a
leading triple backtick (with or without the `json` tag), a trailing
triple backtick, and surrounding whitespace. -/
def strip_fences (response_text : Str) : Str :=
  let cleaned := pyStrip response_text
  let cleaned := if (str "```json").isPrefixOf cleaned then cleaned.drop 7 else cleaned
  let cleaned := if (str "```").isPrefixOf cleaned then cleaned.drop 3 else cleaned
  let cleaned := if (str "```").isSuffixOf cleaned then cleaned.take (cleaned.length - 3)
                 else cleaned
  pyStrip cleaned

/-- The brace-depth scan of the source: walk the text, remember the
index of the first `\x7b`, keep a running depth over every brace seen
(inside string literals too), and stop at the first position where the
depth returns to zero with a recorded start. -/
def braceFind : Str → Int → Option Nat → Nat → Option (Nat × Nat)
  | [], _, _, _ => none
  | c :: rest, brace_count, start_idx, i =>
    if c = lbrace then
      let start' := match start_idx with
        | none => some i
        | some s => some s
      braceFind rest (brace_count + 1) start' (i + 1)
    else if c = rbrace then
      let count' := brace_count - 1
      match start_idx with
      | some s => if count' = 0 then some (s, i + 1) else braceFind rest count' start_idx (i + 1)
      | none => braceFind rest count' start_idx (i + 1)
    else braceFind rest brace_count start_idx (i + 1)

/-- Model of `clean_json_response`: strip fences, take the brace-depth
slice (validated with `json.loads`) or, if no balanced slice was found,
the whole cleaned text; `none` models the raised `ValueError`. -/
def clean_json_response (response_text : Str) : Option Str :=
  let cleaned := strip_fences response_text
  match braceFind cleaned 0 none 0 with
  | some (s, e) =>
    let json_str := (cleaned.drop s).take (e - s)
    if (json_loads json_str).isSome then some json_str else none
  | none => if (json_loads cleaned).isSome then some cleaned else none

/-! ### The Content Generator

Each operation builds a prompt (irrelevant to the outcome, hence not
modelled), awaits the model — the reply is the `resp` parameter — and
post-processes the text inside one big `try` whose handler returns the
hand-authored fallback document. -/

/-- The fixed 14-topic skeleton returned by `get_lesson_structure`. -/
def get_lesson_structure : List Str :=
  [str "أساسيات الحاسوب ونظام التشغيل",
   str "تثبيت بايثون وضبط بيئة العمل",
   str "تعلم أساسيات اللغة",
   str "التعامل مع المتغيرات وأنواع البيانات",
   str "التحكم في سير البرنامج باستخدام الشروط والتكرار",
   str "الدوال",
   str "المجموعات مثل Lists و Tuples و Sets و Dictionaries",
   str "التعامل مع الملفات",
   str "استخدام الموديولات والمكتبات",
   str "التعامل مع الأخطاء",
   str "بناء مشاريع عملية صغيرة",
   str "استخدام أدوات إدارة الحزم مثل pip و venv",
   str "العمل على مشاريع مفتوحة المصدر أو حل تمارين برمجية",
   str "تعلم مكتبات متخصصة مثل NumPy و Pandas و Matplotlib لتحليل البيانات"]

def fallback_curriculum (language : Str) : Json :=
  Json.jobj
    [(str "language", Json.jstr language),
     (str "lessons", Json.jarr (get_lesson_structure.enum.map (fun p =>
       Json.jobj
         [(str "lesson_number", Json.jnum ((p.1 : Int) + 1) 0),
          (str "title", Json.jstr p.2),
          (str "description", Json.jstr (str "تعلم " ++ p.2 ++ str " في لغة " ++ language)),
          (str "objectives", Json.jarr
            [Json.jstr (str "فهم أساسيات " ++ p.2),
             Json.jstr (str "تطبيق " ++ p.2 ++ str " عملياً"),
             Json.jstr (str "حل المشاكل باستخدام " ++ p.2)])])))]

/-- `generate_curriculum`.  The debug print inside the `try` evaluates
`len(curriculum.get("lessons", []))`, so a non-dict document or an
unsized `lessons` value raises there and also lands in the fallback. -/
def generate_curriculum (language : Str) (resp : Option Str) : Json :=
  match resp with
  | none => fallback_curriculum language
  | some txt =>
    match clean_json_response txt with
    | none => fallback_curriculum language
    | some cleaned =>
      match json_loads cleaned with
      | none => fallback_curriculum language
      | some curriculum =>
        match pyGetD curriculum (str "lessons") (Json.jarr []) with
        | none => fallback_curriculum language
        | some lessons =>
          if (pyLen lessons).isSome then curriculum else fallback_curriculum language

def apostrophe : Str := [Char.ofNat 39]

def fallback_lesson_content (language : Str) (lesson_number : Int) (lesson_title : Json) : Json :=
  Json.jobj
    [(str "introduction", Json.jstr
       (str "مرحباً بك في الدرس " ++ (toString lesson_number).data ++ str ": " ++
        pyStr lesson_title ++
        str ". في هذا الدرس سنتعلم المفاهيم الأساسية والمهمة في " ++ pyStr lesson_title ++ str ".")),
     (str "detailed_explanation", Json.jstr
       (str "في هذا الدرس سنتعلم " ++ pyStr lesson_title ++ str " في لغة " ++ language ++
        str ". هذا الموضوع مهم جداً للمبتدئين ويشكل أساساً قوياً لفهم المفاهيم المتقدمة في البرمجة.")),
     (str "code_examples", Json.jarr
       [Json.jobj
         [(str "title", Json.jstr (str "مثال بسيط")),
          (str "code", Json.jstr
            (str "// هذا مثال بسيط في " ++ language ++ str "\n// " ++ pyStr lesson_title ++
             str "\nprint(" ++ apostrophe ++ str "مرحباً بالعالم" ++ apostrophe ++ str ");")),
          (str "explanation", Json.jstr (str "هذا المثال يوضح المفهوم الأساسي"))]]),
     (str "tips", Json.jarr
       [Json.jstr (str "تدرب كثيراً على الأمثلة"),
        Json.jstr (str "اقرأ الكود بعناية"),
        Json.jstr (str "لا تتردد في طرح الأسئلة")]),
     (str "summary", Json.jstr
       (str "تعلمنا في هذا الدرس " ++ pyStr lesson_title ++ str " وأهمية هذا المفهوم في البرمجة"))]

/-- `generate_lesson_content`.  The debug print calls `content.keys()`,
so a non-dict document raises and lands in the fallback. -/
def generate_lesson_content (language : Str) (lesson_number : Int) (lesson_title : Json)
    (resp : Option Str) : Json :=
  match resp with
  | none => fallback_lesson_content language lesson_number lesson_title
  | some txt =>
    match clean_json_response txt with
    | none => fallback_lesson_content language lesson_number lesson_title
    | some cleaned =>
      match json_loads cleaned with
      | none => fallback_lesson_content language lesson_number lesson_title
      | some content =>
        match content with
        | Json.jobj _ => content
        | _ => fallback_lesson_content language lesson_number lesson_title

def fallback_quiz_questions (lesson_number : Int) (lesson_title : Json) : Json :=
  Json.jobj
    [(str "questions", Json.jarr
      [Json.jobj
        [(str "question", Json.jstr
           (str "ما هو الموضوع الرئيسي للدرس " ++ (toString lesson_number).data ++ str "؟")),
         (str "options", Json.jarr
           [lesson_title, Json.jstr (str "موضوع آخر"), Json.jstr (str "لا أعرف"),
            Json.jstr (str "كل ما سبق")]),
         (str "correct_answer", Json.jnum 0 0),
         (str "explanation", Json.jstr (str "الإجابة الصحيحة هي " ++ pyStr lesson_title))]])]

/-- `generate_quiz_questions` returns the decoded document unchanged —
no shape is enforced after `json.loads` succeeds. -/
def generate_quiz_questions (language : Str) (lesson_number : Int) (lesson_title : Json)
    (resp : Option Str) : Json :=
  match resp with
  | none => fallback_quiz_questions lesson_number lesson_title
  | some txt =>
    match clean_json_response txt with
    | none => fallback_quiz_questions lesson_number lesson_title
    | some cleaned =>
      match json_loads cleaned with
      | none => fallback_quiz_questions lesson_number lesson_title
      | some j => j

def default_challenge_id (lessons_completed : Int) (timestamp : Int) : Str :=
  str "challenge_" ++ (toString lessons_completed).data ++ str "_" ++ (toString timestamp).data

def fallback_challenge (lessons_completed : Int) (timestamp : Int) : Json :=
  Json.jobj
    [(str "challenge_id", Json.jstr (default_challenge_id lessons_completed timestamp)),
     (str "title", Json.jstr
       (str "تحدي برمجي بعد " ++ (toString lessons_completed).data ++ str " دروس")),
     (str "description", Json.jstr
       (str "قم بكتابة برنامج يحل المشكلة التالية بناءً على ما تعلمته في الدروس " ++
        (toString (lessons_completed - 3)).data ++ str "-" ++ (toString lessons_completed).data)),
     (str "requirements", Json.jarr
       [Json.jstr (str "يجب أن يحل البرنامج المشكلة المطلوبة"),
        Json.jstr (str "يجب أن يكون الكود نظيفًا وواضحًا")]),
     (str "example_input", Json.jstr (str "المدخلات المطلوبة")),
     (str "example_output", Json.jstr (str "المخرجات المتوقعة")),
     (str "hints", Json.jarr
       [Json.jstr (str "فكر في استخدام الدوال"),
        Json.jstr (str "تأكد من معالجة جميع الحالات")])]

/-- `generate_coding_challenge`: on success the `challenge_id` field is
forced to exist, defaulting to `challenge_<completed>_<timestamp>`;
`.get` on a non-dict document raises and lands in the fallback. -/
def generate_coding_challenge (language : Str) (lessons_completed : Int) (timestamp : Int)
    (resp : Option Str) : Json :=
  match resp with
  | none => fallback_challenge lessons_completed timestamp
  | some txt =>
    match clean_json_response txt with
    | none => fallback_challenge lessons_completed timestamp
    | some cleaned =>
      match json_loads cleaned with
      | none => fallback_challenge lessons_completed timestamp
      | some challenge_data =>
        match challenge_data with
        | Json.jobj fs =>
          let challenge_id :=
            (fs.lookup (str "challenge_id")).getD
              (Json.jstr (default_challenge_id lessons_completed timestamp))
          Json.jobj (setKey fs (str "challenge_id") challenge_id)
        | _ => fallback_challenge lessons_completed timestamp

def fallback_evaluation : Json :=
  Json.jobj
    [(str "is_correct", Json.jbool false),
     (str "score", Json.jnum 0 0),
     (str "feedback", Json.jstr (str "عذرًا، حدث خطأ في تقييم الكود. يرجى المحاولة مرة أخرى.")),
     (str "errors", Json.jarr [Json.jstr (str "لا يمكن تقييم الكود حاليًا")]),
     (str "hints", Json.jarr [Json.jstr (str "تأكد من صحة بناء الجملة في الكود")]),
     (str "suggestions", Json.jarr
       [Json.jstr (str "راجع الدروس السابقة للتعرف على المفاهيم الأساسية")])]

/-- `evaluate_code`: the prompt interpolates `challenge_data.get(...)`
before the model call, so a non-dict `challenge_data` raises inside the
`try` and lands in the fallback; otherwise the decoded document is
returned unchanged. -/
def evaluate_code (language : Str) (code : Str) (challenge_id : Str) (challenge_data : Json)
    (resp : Option Str) : Json :=
  match challenge_data with
  | Json.jobj _ =>
    match resp with
    | none => fallback_evaluation
    | some txt =>
      match clean_json_response txt with
      | none => fallback_evaluation
      | some cleaned =>
        match json_loads cleaned with
        | none => fallback_evaluation
        | some j => j
  | _ => fallback_evaluation

/-! ### Session Store

One mutable session plus the two caches of `memory_storage` that the
handlers touch (`students`/`courses`/`sessions`/`student_progress` are
never read).  Chat history and `created_at` timestamps are not
modelled; no claimed behaviour reads them. -/

structure Session where
  session_id : Str
  language : Str
  curriculum : Json
  current_lesson : Int
  completed_lessons : List Int

structure ChallengeEntry where
  challenge_data : Json
  session_id : Str

structure Storage where
  current_session : Option Session
  quiz_cache : List (Str × Json)
  coding_quizzes : List (Str × ChallengeEntry)

/-- An `HTTPException` with its status code and detail message (the
interpolated exception text of catch-all 500s is abbreviated to the
fixed message prefix). -/
structure HErr where
  status_code : Nat
  detail : Str

/-- Python dict write `d[k] = v`: the new binding shadows any older
one under association-list lookup. -/
def dictSet (m : List (Str × Json)) (k : Str) (v : Json) : List (Str × Json) :=
  (k, v) :: m

/-- Python sequence subscription `xs[i]` for the decoded values that
support it: lists use (negative) positional indexing, strings yield
one-character strings, and an integer subscript on a string-keyed dict
raises `KeyError` (`none`). -/
def pySeqIndex (j : Json) (i : Int) : Option Json :=
  match j with
  | Json.jarr xs => pyIndex xs i
  | Json.jstr s => pyIndex (s.map (fun c => Json.jstr [c])) i
  | _ => none

/-! ### Request handlers

Each handler is a pure function from the storage and the request to the
response (`Except HErr`) and the updated storage.  The raw model
replies consumed inside the handler are extra parameters. -/

structure SelectResp where
  message : Str
  session_id : Str
  language : Str
  current_lesson : Int
  total_lessons : Nat
  curriculum_overview : Json

/-- `POST /select-language`.  `ts` is the `datetime.now().timestamp()`
rendering used for the session id.  The session is replaced before the
response is built, so a malformed `lessons` value still replaces the
session and then turns into a 500. -/
def select_language (st : Storage) (language : Str) (resp : Option Str) (ts : Str) :
    Except HErr SelectResp × Storage :=
  let curriculum := generate_curriculum language resp
  let session_id := str "session_" ++ ts
  let sess : Session := ⟨session_id, language, curriculum, 1, []⟩
  let st' := { st with current_session := some sess }
  match pyGetD curriculum (str "lessons") (Json.jarr []) with
  | some (Json.jarr lessons) =>
    (Except.ok ⟨str "تم إنشاء كورس " ++ language ++ str " بنجاح!", session_id, language, 1,
       lessons.length, Json.jarr (lessons.take 3)⟩, st')
  | some (Json.jstr s) =>
    (Except.ok ⟨str "تم إنشاء كورس " ++ language ++ str " بنجاح!", session_id, language, 1,
       s.length, Json.jstr (s.take 3)⟩, st')
  | _ => (Except.error ⟨500, str "Error creating course: "⟩, st')

structure LessonResp where
  lesson_number : Int
  title : Json
  description : Json
  objectives : Json
  content : Json
  language : Str

/-- `GET /lesson/{lesson_number}`.  `contentResp` is the model reply
consumed by `generate_lesson_content`; the handler stores nothing. -/
def get_lesson (st : Storage) (lesson_number : Int) (contentResp : Option Str) :
    Except HErr LessonResp × Storage :=
  match st.current_session with
  | none => (Except.error ⟨404, str "No active session. Please select a language first."⟩, st)
  | some sess =>
    if sess.current_lesson < lesson_number then
      (Except.error ⟨403, str "Complete previous lessons first"⟩, st)
    else if ¬ (pyTruthy sess.curriculum ∧ pyHasKey sess.curriculum (str "lessons")) then
      (Except.error ⟨500, str "Curriculum not found"⟩, st)
    else
      match pySubscr sess.curriculum (str "lessons") with
      | none => (Except.error ⟨500, str "Error fetching lesson: "⟩, st)
      | some lessonsVal =>
        match pyLen lessonsVal with
        | none => (Except.error ⟨500, str "Error fetching lesson: "⟩, st)
        | some L =>
          if (L : Int) < lesson_number then
            (Except.error ⟨404,
              str "Lesson " ++ (toString lesson_number).data ++ str " not found"⟩, st)
          else
            match pySeqIndex lessonsVal (lesson_number - 1) with
            | none => (Except.error ⟨500, str "Error fetching lesson: "⟩, st)
            | some lesson_info =>
              match lesson_info with
              | Json.jobj ifs =>
                let content := generate_lesson_content sess.language lesson_number
                  ((ifs.lookup (str "title")).getD
                    (Json.jstr (str "الدرس " ++ (toString lesson_number).data))) contentResp
                (Except.ok
                  ⟨lesson_number,
                   (ifs.lookup (str "title")).getD Json.null,
                   (ifs.lookup (str "description")).getD Json.null,
                   (ifs.lookup (str "objectives")).getD (Json.jarr []),
                   content, sess.language⟩, st)
              | _ => (Except.error ⟨500, str "Error fetching lesson: "⟩, st)

/-- The quiz-cache key `f"{session_id}_lesson_{lesson_number}"`. -/
def quiz_cache_key (session_id : Str) (lesson_number : Int) : Str :=
  session_id ++ str "_lesson_" ++ (toString lesson_number).data

structure QuizResp where
  lesson_number : Int
  lesson_title : Json
  questions : Json
  cached : Bool

/-- `GET /generate-quiz/{lesson_number}`. -/
def generate_quiz (st : Storage) (lesson_number : Int) (resp : Option Str) :
    Except HErr QuizResp × Storage :=
  match st.current_session with
  | none => (Except.error ⟨404, str "No active session. Please select a language first."⟩, st)
  | some sess =>
    if ¬ (pyTruthy sess.curriculum ∧ pyHasKey sess.curriculum (str "lessons")) then
      (Except.error ⟨500, str "Curriculum not found"⟩, st)
    else
      match pySubscr sess.curriculum (str "lessons") with
      | none => (Except.error ⟨500, str "Error generating quiz"⟩, st)
      | some lessonsVal =>
        match pyLen lessonsVal with
        | none => (Except.error ⟨500, str "Error generating quiz"⟩, st)
        | some L =>
          if (L : Int) < lesson_number then
            (Except.error ⟨404,
              str "Lesson " ++ (toString lesson_number).data ++ str " not found"⟩, st)
          else
            match pySeqIndex lessonsVal (lesson_number - 1) with
            | none => (Except.error ⟨500, str "Error generating quiz"⟩, st)
            | some lesson_info =>
              match lesson_info with
              | Json.jobj ifs =>
                let cache_key := quiz_cache_key sess.session_id lesson_number
                match st.quiz_cache.lookup cache_key with
                | some cached_quiz =>
                  (Except.ok ⟨lesson_number, (ifs.lookup (str "title")).getD Json.null,
                    cached_quiz, true⟩, st)
                | none =>
                  let questions := generate_quiz_questions sess.language lesson_number
                    ((ifs.lookup (str "title")).getD
                      (Json.jstr (str "الدرس " ++ (toString lesson_number).data))) resp
                  (Except.ok ⟨lesson_number, (ifs.lookup (str "title")).getD Json.null,
                    questions, false⟩,
                   { st with quiz_cache := dictSet st.quiz_cache cache_key questions })
              | _ => (Except.error ⟨500, str "Error generating quiz"⟩, st)

structure GradeEntry where
  question_number : Nat
  question_text : Json
  user_answer : Int
  correct_answer : Json
  is_correct : Bool
  explanation : Json

/-- The grading loop of `submit_quiz`: walk the submitted answers,
compare each one that has a matching question index, and collect the
per-question result entries; `none` models the `AttributeError` raised
by `.get` on a non-dict question element. -/
def gradeLoop : List Int → List Json → Nat → Option (Nat × List GradeEntry)
  | [], _, _ => some (0, [])
  | user_answer :: rest, questions, i =>
    if i < questions.length then
      match questions[i]? with
      | some (Json.jobj qfs) =>
        let correct_answer := (qfs.lookup (str "correct_answer")).getD (Json.jnum 0 0)
        let ok := pyIntEq user_answer correct_answer
        match gradeLoop rest questions (i + 1) with
        | none => none
        | some (c, es) =>
          some ((if ok then c + 1 else c),
            ⟨i + 1, (qfs.lookup (str "question")).getD (Json.jstr []), user_answer,
             correct_answer, ok,
             (qfs.lookup (str "explanation")).getD (Json.jstr (str "لا يوجد شرح متاح"))⟩ :: es)
      | _ => none
    else gradeLoop rest questions (i + 1)

structure QuizResult where
  score : ℚ
  passed : Bool
  correct_answers : Nat
  total_questions : Nat
  results : List GradeEntry
  message : Str
  next_lesson_available : Option Int
  quiz_was_cached : Bool

/-- The progress update applied by `submit_quiz` on a passing grade:
the lesson is appended to `completed_lessons` when absent, and
`current_lesson` advances exactly when the lesson is the current one
and below 14. -/
def passUpdate (sess : Session) (n : Int) : Session :=
  { sess with
    completed_lessons :=
      if n ∈ sess.completed_lessons then sess.completed_lessons
      else sess.completed_lessons ++ [n],
    current_lesson :=
      if n = sess.current_lesson ∧ n < 14 then sess.current_lesson + 1
      else sess.current_lesson }

/-- `POST /submit-quiz`.  `resp` is the model reply used only when the
quiz was never cached (the fallback generation path).  The question
document and the possibly-extended quiz cache are threaded as
`questions_opt`/`new_cache` (`questions_opt = none` models the
`AttributeError` of the fallback path's `.get` on a non-dict lesson
record, raised before anything is cached). -/
def submit_quiz (st : Storage) (lesson_id : Int) (answers : List Int) (resp : Option Str) :
    Except HErr QuizResult × Storage :=
  match st.current_session with
  | none => (Except.error ⟨404, str "No active session. Please select a language first."⟩, st)
  | some sess =>
    let lesson_number := lesson_id
    match pySubscr sess.curriculum (str "lessons") with
    | none => (Except.error ⟨500, str "Error submitting quiz"⟩, st)
    | some lessonsVal =>
      match pyLen lessonsVal with
      | none => (Except.error ⟨500, str "Error submitting quiz"⟩, st)
      | some L =>
        if (L : Int) < lesson_number then
          (Except.error ⟨404,
            str "Lesson " ++ (toString lesson_number).data ++ str " not found"⟩, st)
        else
          match pySeqIndex lessonsVal (lesson_number - 1) with
          | none => (Except.error ⟨500, str "Error submitting quiz"⟩, st)
          | some lesson_info =>
            let cache_key := quiz_cache_key sess.session_id lesson_number
            let hit := st.quiz_cache.lookup cache_key
            let questions_opt : Option Json :=
              match hit with
              | some qd => some qd
              | none =>
                match lesson_info with
                | Json.jobj ifs =>
                  some (generate_quiz_questions sess.language lesson_number
                    ((ifs.lookup (str "title")).getD
                      (Json.jstr (str "الدرس " ++ (toString lesson_number).data))) resp)
                | _ => none
            let new_cache : List (Str × Json) :=
              match hit with
              | some _ => st.quiz_cache
              | none =>
                match lesson_info with
                | Json.jobj ifs =>
                  dictSet st.quiz_cache cache_key
                    (generate_quiz_questions sess.language lesson_number
                      ((ifs.lookup (str "title")).getD
                        (Json.jstr (str "الدرس " ++ (toString lesson_number).data))) resp)
                | _ => st.quiz_cache
            match questions_opt with
            | none => (Except.error ⟨500, str "Error submitting quiz"⟩, st)
            | some questions_data =>
              match pyGetD questions_data (str "questions") (Json.jarr []) with
              | none => (Except.error ⟨500, str "Error submitting quiz"⟩,
                  ⟨st.current_session, new_cache, st.coding_quizzes⟩)
              | some questions =>
                if ¬ pyTruthy questions then
                  (Except.error ⟨400, str "No questions found"⟩,
                   ⟨st.current_session, new_cache, st.coding_quizzes⟩)
                else
                  match questions with
                  | Json.jarr qs =>
                    match gradeLoop answers qs 0 with
                    | none => (Except.error ⟨500, str "Error submitting quiz"⟩,
                        ⟨st.current_session, new_cache, st.coding_quizzes⟩)
                    | some (correct_count, results) =>
                      if results.isEmpty then
                        (Except.error ⟨400, str "No valid answers to evaluate"⟩,
                         ⟨st.current_session, new_cache, st.coding_quizzes⟩)
                      else
                        let score : ℚ := (correct_count : ℚ) / (qs.length : ℚ) * 100
                        let passed : Bool := decide ((70 : ℚ) ≤ score)
                        let sess' := if passed then passUpdate sess lesson_number else sess
                        (Except.ok
                          ⟨score, passed, correct_count, qs.length, results,
                           (if passed then str "تهانينا! لقد نجحت في الاختبار"
                            else str "للأسف، لم تجتز الاختبار. حاول مرة أخرى"),
                           (if passed then some sess'.current_lesson else none),
                           (new_cache.lookup cache_key).isSome⟩,
                         ⟨some sess', new_cache, st.coding_quizzes⟩)
                  | _ =>
                    -- a truthy non-list `questions` value: with no
                    -- submitted answers the loop never runs and the empty
                    -- result set turns into a 400; any answer makes the
                    -- first iteration raise (`len`, indexing or `.get`)
                    if answers.isEmpty then
                      (Except.error ⟨400, str "No valid answers to evaluate"⟩,
                       ⟨st.current_session, new_cache, st.coding_quizzes⟩)
                    else (Except.error ⟨500, str "Error submitting quiz"⟩,
                       ⟨st.current_session, new_cache, st.coding_quizzes⟩)

/-- The challenge-cache key `f"{session_id}_challenge_{milestone}"`. -/
def challenge_cache_key (session_id : Str) (milestone : Nat) : Str :=
  session_id ++ str "_challenge_" ++ (toString milestone).data

/-- The milestone bucket `(completed_lessons // 4) * 4`. -/
def challenge_milestone (completed_lessons : Nat) : Nat :=
  completed_lessons / 4 * 4

structure ChallengeResp where
  challenge : Json
  message : Str
  is_cached : Bool

/-- `GET /generate-coding-challenge`.  `ts` is the generation timestamp
used for the default challenge id. -/
def generate_coding_challenge_endpoint (st : Storage) (ts : Int) (resp : Option Str) :
    Except HErr ChallengeResp × Storage :=
  match st.current_session with
  | none => (Except.error ⟨404, str "No active session. Please select a language first."⟩, st)
  | some sess =>
    let completed_lessons := sess.completed_lessons.length
    if completed_lessons < 4 then
      (Except.error ⟨400,
        str "يتم إنشاء التحديات البرمجية بعد إكمال 4 دروس على الأقل. لقد أكملت " ++
        (toString completed_lessons).data ++ str " دروس فقط حتى الآن."⟩, st)
    else
      let milestone := challenge_milestone completed_lessons
      let existing_challenge_key := challenge_cache_key sess.session_id milestone
      match st.coding_quizzes.lookup existing_challenge_key with
      | some entry =>
        (Except.ok ⟨entry.challenge_data,
          str "تم إيجاد تحدي برمجي سابق بعد إكمال " ++ (toString milestone).data ++ str " دروس",
          true⟩, st)
      | none =>
        let challenge := generate_coding_challenge sess.language (milestone : Int) ts resp
        (Except.ok ⟨challenge,
          str "تم إنشاء تحدي برمجي جديد بعد إكمال " ++ (toString milestone).data ++ str " دروس",
          false⟩,
         { st with coding_quizzes :=
             (existing_challenge_key, ⟨challenge, sess.session_id⟩) :: st.coding_quizzes })

structure CodeResp where
  evaluation : Json
  challenge_id : Str
  challenge_title : Json

/-- `POST /submit-code`: the submitted `challenge_id` is looked up
among the keys of the challenge store. -/
def submit_code (st : Storage) (code : Str) (challenge_id : Str) (resp : Option Str) :
    Except HErr CodeResp × Storage :=
  match st.current_session with
  | none => (Except.error ⟨404, str "No active session. Please select a language first."⟩, st)
  | some sess =>
    match st.coding_quizzes.lookup challenge_id with
    | none => (Except.error ⟨404, str "Challenge not found"⟩, st)
    | some entry =>
      let evaluation := evaluate_code sess.language code challenge_id entry.challenge_data resp
      match pyGetD entry.challenge_data (str "title") (Json.jstr []) with
      | none => (Except.error ⟨500, str "Error evaluating code"⟩, st)
      | some title => (Except.ok ⟨evaluation, challenge_id, title⟩, st)

/-! ### Spec-side notions used to state the claims -/

/-- A decoded value is a JSON object. -/
def isObjB : Json → Bool
  | Json.jobj _ => true
  | _ => false

/-- A submitted answer matches a question exactly when it equals the
question's `correct_answer` field (default 0), under Python `==`. -/
def answerMatches (a : Int) (q : Json) : Bool :=
  match q with
  | Json.jobj qfs => pyIntEq a ((qfs.lookup (str "correct_answer")).getD (Json.jnum 0 0))
  | _ => false

/-- Number of matching answers in the prefix of length
`min (answers.length) (qs.length)` (element-wise zip). -/
def matchCount (answers : List Int) (qs : List Json) : Nat :=
  ((answers.zip qs).filter (fun p => answerMatches p.1 p.2)).length

/-- A submit-quiz outcome that succeeded with a passing grade. -/
def isOkPassed : Except HErr QuizResult → Bool
  | Except.ok r => r.passed
  | Except.error _ => false

/-- The `current_lesson` of the stored session (1, its initial value,
when no session exists). -/
def storCur (st : Storage) : Int :=
  match st.current_session with
  | some sess => sess.current_lesson
  | none => 1

/-- One `POST /submit-quiz` request together with the model reply its
fallback-generation path would consume. -/
structure SubmitCall where
  lesson_id : Int
  answers : List Int
  resp : Option Str

/-- Run a sequence of submit-quiz calls against the store. -/
def runSubmits (st : Storage) : List SubmitCall → Storage
  | [] => st
  | c :: rest => runSubmits (submit_quiz st c.lesson_id c.answers c.resp).2 rest

/-- The requests that can be issued within one session (language
selection, which replaces the session, is deliberately excluded), each
packaged with the model replies it consumes. -/
inductive Op where
  | opLesson (n : Int) (resp : Option Str)
  | opQuiz (n : Int) (resp : Option Str)
  | opSubmit (n : Int) (answers : List Int) (resp : Option Str)
  | opChallenge (ts : Int) (resp : Option Str)
  | opCode (code : Str) (challenge_id : Str) (resp : Option Str)

/-- The storage after handling one request. -/
def applyOp (st : Storage) : Op → Storage
  | Op.opLesson n resp => (get_lesson st n resp).2
  | Op.opQuiz n resp => (generate_quiz st n resp).2
  | Op.opSubmit n answers resp => (submit_quiz st n answers resp).2
  | Op.opChallenge ts resp => (generate_coding_challenge_endpoint st ts resp).2
  | Op.opCode code cid resp => (submit_code st code cid resp).2

def runOps (st : Storage) : List Op → Storage
  | [] => st
  | op :: rest => runOps (applyOp st op) rest

/-- A step generates (and caches) the question set for key `k` exactly
when `k` is absent before the step and present after it — the handlers
write a quiz-cache key if and only if they invoked the model to
generate that question set. -/
def addsKey (st : Storage) (op : Op) (k : Str) : Bool :=
  (st.quiz_cache.lookup k).isNone ∧ (((applyOp st op).quiz_cache.lookup k).isSome)

/-- How many steps of the sequence generate the question set of key
`k`. -/
def genCount : Storage → List Op → Str → Nat
  | _, [], _ => 0
  | st, op :: rest, k => (if addsKey st op k then 1 else 0) + genCount (applyOp st op) rest k

/-- A text that contains no brace characters. -/
def braceFree (s : Str) : Bool :=
  s.all (fun c => !(c == lbrace) && !(c == rbrace))

/-- The key list of a decoded JSON object. -/
def jsonKeys : Json → Option (List Str)
  | Json.jobj fs => some (fs.map Prod.fst)
  | _ => none

/-! ### Concrete fixtures used by witnesses and counterexamples -/

/-- A well-formed five-option quiz question with the given correct
answer index. -/
def mkQ (q : Str) (ca : Int) : Json :=
  Json.jobj
    [(str "question", Json.jstr q),
     (str "options", Json.jarr
       [Json.jstr (str "a"), Json.jstr (str "b"), Json.jstr (str "c"), Json.jstr (str "d")]),
     (str "correct_answer", Json.jnum ca 0),
     (str "explanation", Json.jstr (str "e"))]

/-- Five questions with correct answers 0,1,2,3,0. -/
def qsW : List Json :=
  [mkQ (str "q0") 0, mkQ (str "q1") 1, mkQ (str "q2") 2, mkQ (str "q3") 3, mkQ (str "q4") 0]

/-- A cached five-question document (correct answers 0,1,2,3,0). -/
def qdoc5 : Json := Json.jobj [(str "questions", Json.jarr qsW)]

/-- A fresh session on the fallback Python curriculum. -/
def sessW : Session :=
  ⟨str "session_1.0", str "Python", fallback_curriculum (str "Python"), 1, []⟩

/-- A store holding `sessW` with the lesson-1 quiz already cached. -/
def stW : Storage :=
  ⟨some sessW, [(quiz_cache_key (str "session_1.0") 1, qdoc5)], []⟩

/-- A session that has completed lessons 1–4. -/
def sessC1 : Session :=
  ⟨str "session_1.0", str "Python", fallback_curriculum (str "Python"), 5, [1, 2, 3, 4]⟩

def stC1 : Storage := ⟨some sessC1, [], []⟩

/-- A session that has completed five lessons. -/
def sessC6 : Session :=
  ⟨str "session_1.0", str "Python", fallback_curriculum (str "Python"), 6, [1, 2, 3, 4, 5]⟩

def stC6 : Storage := ⟨some sessC6, [], []⟩

/-- Title of the first fallback lesson. -/
def t1 : Str := str "أساسيات الحاسوب ونظام التشغيل"

/-- Title of the fourteenth (last) fallback lesson. -/
def t14 : Str := str "تعلم مكتبات متخصصة مثل NumPy و Pandas و Matplotlib لتحليل البيانات"

/-- The field list of lesson `k` (1-based) of the fallback Python
curriculum, given its title. -/
def fallbackLessonFields (k : Int) (t : Str) : List (Str × Json) :=
  [(str "lesson_number", Json.jnum k 0),
   (str "title", Json.jstr t),
   (str "description", Json.jstr (str "تعلم " ++ t ++ str " في لغة " ++ str "Python")),
   (str "objectives", Json.jarr
     [Json.jstr (str "فهم أساسيات " ++ t),
      Json.jstr (str "تطبيق " ++ t ++ str " عملياً"),
      Json.jstr (str "حل المشاكل باستخدام " ++ t)])]

/-- The document a model reply yields when extraction and decoding both
succeed: `none` models a model error, an extraction failure or a JSON
decode failure. -/
def respDoc (resp : Option Str) : Option Json :=
  match resp with
  | none => none
  | some txt =>
    match clean_json_response txt with
    | none => none
    | some cleaned => json_loads cleaned

/-- A model reply that is valid JSON but violates the quiz schema. -/
def badQuizResp : Str := str "\x7b\x22zzz\x22: 0\x7d"

/-- A fenced model reply holding a JSON object whose inner string
contains an unbalanced closing brace. -/
def cexC7raw : Str := str "```json\n\x7b\x22a\x22: \x22\x7d\x22\x7d\n```"

/-- The valid JSON object embedded in `cexC7raw`. -/
def cexC7obj : Str := str "\x7b\x22a\x22: \x22\x7d\x22\x7d"

/-- A fenced model reply holding a JSON object followed by prose. -/
def witC7raw : Str := str "```json\n\x7b\x22a\x22: 1\x7d trailing prose\n```"

/-- The JSON object embedded in `witC7raw`. -/
def witC7obj : Str := str "\x7b\x22a\x22: 1\x7d"

/-! ## Theorems -/

/-- If the scan finds its result inside `b`, appending more text does
not change the result. -/
theorem braceFind_append_of_some (c : Str) :
    ∀ (b : Str) (count : Int) (start : Option Nat) (i : Nat) (r : Nat × Nat),
      braceFind b count start i = some r → braceFind (b ++ c) count start i = some r := by
  intro b
  induction b with
  | nil => intro count start i r h; simp [braceFind] at h
  | cons d b ih =>
    intro count start i r h
    rw [List.cons_append]
    by_cases h1 : d = lbrace
    · simp only [braceFind, if_pos h1] at h ⊢
      exact ih _ _ _ _ h
    · by_cases h2 : d = rbrace
      · simp only [braceFind, if_neg h1, if_pos h2] at h ⊢
        cases start with
        | none => exact ih _ _ _ _ h
        | some s =>
          by_cases h3 : count - 1 = 0
          · simp only [if_pos h3] at h ⊢
            exact h
          · simp only [if_neg h3] at h ⊢
            exact ih _ _ _ _ h
      · simp only [braceFind, if_neg h1, if_neg h2] at h ⊢
        exact ih _ _ _ _ h

/-- Shifting the position counter (and any recorded start) shifts the
reported indices. -/
theorem braceFind_shift (d : Nat) :
    ∀ (l : Str) (count : Int) (start : Option Nat) (i : Nat),
      braceFind l count (start.map (· + d)) (i + d) =
        (braceFind l count start i).map (fun p => (p.1 + d, p.2 + d)) := by
  intro l
  induction l with
  | nil => intro count start i; simp [braceFind]
  | cons c l ih =>
    intro count start i
    by_cases h1 : c = lbrace
    · simp only [braceFind, if_pos h1]
      cases start with
      | none =>
        have := ih (count + 1) (some i) (i + 1)
        simpa [Nat.add_right_comm i 1 d] using this
      | some s =>
        have := ih (count + 1) (some s) (i + 1)
        simpa [Nat.add_right_comm i 1 d] using this
    · by_cases h2 : c = rbrace
      · simp only [braceFind, if_neg h1, if_pos h2]
        cases start with
        | none =>
          have := ih (count - 1) none (i + 1)
          simpa [Nat.add_right_comm i 1 d] using this
        | some s =>
          by_cases h3 : count - 1 = 0
          · simp only [Option.map_some, if_pos h3]
            simp [Nat.add_right_comm i 1 d]
          · simp only [Option.map_some, if_neg h3]
            have := ih (count - 1) (some s) (i + 1)
            simpa [Nat.add_right_comm i 1 d] using this
      · simp only [braceFind, if_neg h1, if_neg h2]
        have := ih count start (i + 1)
        simpa [Nat.add_right_comm i 1 d] using this

/-- Scanning past brace-free text only advances the position. -/
theorem braceFind_skip :
    ∀ (a r : Str), braceFree a = true →
      ∀ (count : Int) (start : Option Nat) (i : Nat),
        braceFind (a ++ r) count start i = braceFind r count start (a.length + i) := by
  intro a
  induction a with
  | nil => intro r _ count start i; simp
  | cons c a ih =>
    intro r hfree count start i
    simp only [braceFree, List.all_cons, Bool.and_eq_true, Bool.not_eq_true',
      beq_eq_false_iff_ne, ne_eq] at hfree
    rw [List.cons_append]
    simp only [braceFind, if_neg hfree.1.1, if_neg hfree.1.2]
    have h := ih r (by simp only [braceFree]; exact hfree.2) count start (i + 1)
    rw [h]
    congr 1
    simp only [List.length_cons]
    omega

/-- Putting the pieces together: in `a ++ b ++ c` with `a` brace-free
and `b` a text whose own scan closes exactly at its end, the scan finds
exactly the span of `b`. -/
theorem braceFind_decomp (a b c : Str) (ha : braceFree a = true)
    (hb : braceFind b 0 none 0 = some (0, b.length)) :
    braceFind (a ++ b ++ c) 0 none 0 = some (a.length, a.length + b.length) := by
  have h1 : braceFind (b ++ c) 0 none 0 = some (0, b.length) :=
    braceFind_append_of_some c b 0 none 0 _ hb
  have h2 := braceFind_shift a.length (b ++ c) 0 none 0
  rw [h1] at h2
  simp only [Option.map_none', Option.map_some', Nat.zero_add] at h2
  rw [List.append_assoc, braceFind_skip a (b ++ c) ha 0 none 0, Nat.add_zero, h2]
  have hcomm : b.length + a.length = a.length + b.length := by omega
  rw [hcomm]

/-- C7 (amended): when the cleaned text decomposes as brace-free prose,
then a JSON object text whose brace-depth scan closes exactly at its
own end, then trailing prose, the extractor returns exactly the object
text.  (When the object's inner strings contain unbalanced braces the
scan closes early, validation fails, and the extractor raises instead —
see the counterexample.) -/
theorem c7_extractor (raw a b c : Str)
    (hdecomp : strip_fences raw = a ++ b ++ c)
    (ha : braceFree a = true)
    (hb : braceFind b 0 none 0 = some (0, b.length))
    (hvalid : (json_loads b).isSome = true) :
    clean_json_response raw = some b := by
  unfold clean_json_response
  rw [hdecomp]
  simp only [braceFind_decomp a b c ha hb]
  have harith : a.length + b.length - a.length = b.length := by omega
  have hdrop : (a ++ b ++ c).drop a.length = b ++ c := by
    rw [List.append_assoc]
    exact List.drop_left _ _
  rw [hdrop, harith, List.take_left, hvalid]
  simp

/-- C7 counterexample: the fenced input `cexC7raw` embeds the valid
JSON object `{"a": "}"}` (brace inside a string literal), yet the
extractor raises a `ValueError` instead of returning the object's text,
because the depth scan counts the brace inside the string. -/
theorem c7_counterexample :
    strip_fences cexC7raw = cexC7obj ∧
    (json_loads cexC7obj).isSome = true ∧
    clean_json_response cexC7raw = none :=
  ⟨rfl, rfl, rfl⟩

/-- C7 witness: a fenced object followed by trailing prose is extracted
exactly. -/
theorem c7_extractor_witness :
    strip_fences witC7raw = [] ++ witC7obj ++ str " trailing prose" ∧
    braceFree [] = true ∧
    braceFind witC7obj 0 none 0 = some (0, witC7obj.length) ∧
    (json_loads witC7obj).isSome = true ∧
    clean_json_response witC7raw = some witC7obj :=
  ⟨rfl, rfl, rfl, rfl,
   c7_extractor witC7raw [] witC7obj (str " trailing prose") rfl rfl rfl rfl⟩


/-- C8 (amended): every content-generation operation is total and
returns either its hand-authored fallback document or the document
decoded from the model reply: the fallback is returned on model error,
extraction failure or JSON decode failure (and for a non-object result
where the operation dereferences the document), while decoded JSON that
merely violates the expected schema is passed through unchanged (in
`generate_coding_challenge` with the `challenge_id` field forced). -/
theorem c8_generator_fallbacks (language code challenge_id : Str)
    (lesson_title : Json) (lesson_number lessons_completed timestamp : Int)
    (cfs : List (Str × Json)) (resp : Option Str) :
    (generate_curriculum language resp = fallback_curriculum language ∨
      ∃ j, respDoc resp = some j ∧ generate_curriculum language resp = j) ∧
    (generate_lesson_content language lesson_number lesson_title resp =
        fallback_lesson_content language lesson_number lesson_title ∨
      ∃ j, respDoc resp = some j ∧
        generate_lesson_content language lesson_number lesson_title resp = j) ∧
    (generate_quiz_questions language lesson_number lesson_title resp =
        fallback_quiz_questions lesson_number lesson_title ∨
      ∃ j, respDoc resp = some j ∧
        generate_quiz_questions language lesson_number lesson_title resp = j) ∧
    (generate_coding_challenge language lessons_completed timestamp resp =
        fallback_challenge lessons_completed timestamp ∨
      ∃ fs, respDoc resp = some (Json.jobj fs) ∧
        generate_coding_challenge language lessons_completed timestamp resp =
          Json.jobj (setKey fs (str "challenge_id")
            ((fs.lookup (str "challenge_id")).getD
              (Json.jstr (default_challenge_id lessons_completed timestamp))))) ∧
    (evaluate_code language code challenge_id (Json.jobj cfs) resp = fallback_evaluation ∨
      ∃ j, respDoc resp = some j ∧
        evaluate_code language code challenge_id (Json.jobj cfs) resp = j) ∧
    generate_curriculum language none = fallback_curriculum language ∧
    generate_lesson_content language lesson_number lesson_title none =
      fallback_lesson_content language lesson_number lesson_title ∧
    generate_quiz_questions language lesson_number lesson_title none =
      fallback_quiz_questions lesson_number lesson_title ∧
    generate_coding_challenge language lessons_completed timestamp none =
      fallback_challenge lessons_completed timestamp ∧
    evaluate_code language code challenge_id (Json.jobj cfs) none = fallback_evaluation := by
  refine ⟨?_, ?_, ?_, ?_, ?_, rfl, rfl, rfl, rfl, rfl⟩
  · rcases resp with _ | txt
    · left; rfl
    · rcases hc : clean_json_response txt with _ | cleaned
      · left; simp [generate_curriculum, hc]
      · rcases hj : json_loads cleaned with _ | j
        · left; simp [generate_curriculum, hc, hj]
        · rcases hg : pyGetD j (str "lessons") (Json.jarr []) with _ | lessons
          · left; simp [generate_curriculum, hc, hj, hg]
          · by_cases hl : (pyLen lessons).isSome = true
            · right
              exact ⟨j, by simp [respDoc, hc, hj],
                by simp [generate_curriculum, hc, hj, hg, hl]⟩
            · left
              simp only [Bool.not_eq_true] at hl
              simp [generate_curriculum, hc, hj, hg, hl]
  · rcases resp with _ | txt
    · left; rfl
    · rcases hc : clean_json_response txt with _ | cleaned
      · left; simp [generate_lesson_content, hc]
      · rcases hj : json_loads cleaned with _ | j
        · left; simp [generate_lesson_content, hc, hj]
        · cases j with
          | jobj fs =>
            right
            exact ⟨Json.jobj fs, by simp [respDoc, hc, hj],
              by simp [generate_lesson_content, hc, hj]⟩
          | null => left; simp [generate_lesson_content, hc, hj]
          | jbool b => left; simp [generate_lesson_content, hc, hj]
          | jnum m e => left; simp [generate_lesson_content, hc, hj]
          | jstr s => left; simp [generate_lesson_content, hc, hj]
          | jarr xs => left; simp [generate_lesson_content, hc, hj]
  · rcases resp with _ | txt
    · left; rfl
    · rcases hc : clean_json_response txt with _ | cleaned
      · left; simp [generate_quiz_questions, hc]
      · rcases hj : json_loads cleaned with _ | j
        · left; simp [generate_quiz_questions, hc, hj]
        · right
          exact ⟨j, by simp [respDoc, hc, hj], by simp [generate_quiz_questions, hc, hj]⟩
  · rcases resp with _ | txt
    · left; rfl
    · rcases hc : clean_json_response txt with _ | cleaned
      · left; simp [generate_coding_challenge, hc]
      · rcases hj : json_loads cleaned with _ | j
        · left; simp [generate_coding_challenge, hc, hj]
        · cases j with
          | jobj fs =>
            right
            exact ⟨fs, by simp [respDoc, hc, hj],
              by simp [generate_coding_challenge, hc, hj]⟩
          | null => left; simp [generate_coding_challenge, hc, hj]
          | jbool b => left; simp [generate_coding_challenge, hc, hj]
          | jnum m e => left; simp [generate_coding_challenge, hc, hj]
          | jstr s => left; simp [generate_coding_challenge, hc, hj]
          | jarr xs => left; simp [generate_coding_challenge, hc, hj]
  · rcases resp with _ | txt
    · left; rfl
    · rcases hc : clean_json_response txt with _ | cleaned
      · left; simp [evaluate_code, hc]
      · rcases hj : json_loads cleaned with _ | j
        · left; simp [evaluate_code, hc, hj]
        · right
          exact ⟨j, by simp [respDoc, hc, hj], by simp [evaluate_code, hc, hj]⟩

/-- C8 counterexample: a model reply that is valid JSON but violates
the quiz schema is returned as-is by `generate_quiz_questions` — not
replaced by the fallback document, refuting the claim that every
schema-violating reply yields the fallback. -/
theorem c8_counterexample :
    generate_quiz_questions (str "Python") 1 (Json.jstr (str "t")) (some badQuizResp) =
      Json.jobj [(str "zzz", Json.jnum 0 0)] ∧
    jsonKeys (Json.jobj [(str "zzz", Json.jnum 0 0)]) = some [str "zzz"] ∧
    jsonKeys (fallback_quiz_questions 1 (Json.jstr (str "t"))) = some [str "questions"] ∧
    generate_quiz_questions (str "Python") 1 (Json.jstr (str "t")) (some badQuizResp) ≠
      fallback_quiz_questions 1 (Json.jstr (str "t")) := by
  refine ⟨rfl, rfl, rfl, ?_⟩
  have hk : jsonKeys (generate_quiz_questions (str "Python") 1 (Json.jstr (str "t"))
        (some badQuizResp)) ≠
      jsonKeys (fallback_quiz_questions 1 (Json.jstr (str "t"))) := by decide
  exact fun h => hk (congrArg jsonKeys h)

/-- C1: A coding challenge generated for a session with four completed
lessons is stored under the key `session_1.0_challenge_4` while the
challenge document returned to the client carries
`challenge_id = "challenge_4_777"`; submitting code with that
`challenge_id` fails with 404 even though the challenge is stored, so
the store is not indexed by the `challenge_id` field and the lookup
contract of the claim is broken by the code. -/
theorem c1_challenge_id_never_found :
    (∃ msg, (generate_coding_challenge_endpoint stC1 777 none).1 =
      Except.ok ⟨fallback_challenge 4 777, msg, false⟩) ∧
    pySubscr (fallback_challenge 4 777) (str "challenge_id") =
      some (Json.jstr (str "challenge_4_777")) ∧
    (((generate_coding_challenge_endpoint stC1 777 none).2.coding_quizzes.lookup
        (challenge_cache_key (str "session_1.0") 4)).map ChallengeEntry.challenge_data) =
      some (fallback_challenge 4 777) ∧
    ((generate_coding_challenge_endpoint stC1 777 none).2.coding_quizzes.lookup
        (str "challenge_4_777")) = none ∧
    (submit_code (generate_coding_challenge_endpoint stC1 777 none).2
        (str "print(1)") (str "challenge_4_777") none).1 =
      Except.error ⟨404, str "Challenge not found"⟩ :=
  ⟨⟨_, rfl⟩, rfl, rfl, rfl, rfl⟩

/-- C6: with an active session, requesting a coding challenge with
fewer than four completed lessons fails with a 400 whose message names
the completion count; with at least four, the handler serves the cached
challenge for milestone `(count / 4) * 4` or generates and caches a new
one under that milestone's key; counts 4–7 bucket to milestone 4 and
count 8 to milestone 8. -/
theorem c6_challenge_milestone (st : Storage) (sess : Session) (ts : Int) (resp : Option Str)
    (hs : st.current_session = some sess) :
    (sess.completed_lessons.length < 4 →
      generate_coding_challenge_endpoint st ts resp =
        (Except.error ⟨400,
          str "يتم إنشاء التحديات البرمجية بعد إكمال 4 دروس على الأقل. لقد أكملت " ++
          (toString sess.completed_lessons.length).data ++
          str " دروس فقط حتى الآن."⟩, st)) ∧
    (4 ≤ sess.completed_lessons.length →
      (∀ e, st.coding_quizzes.lookup (challenge_cache_key sess.session_id
          (challenge_milestone sess.completed_lessons.length)) = some e →
        generate_coding_challenge_endpoint st ts resp =
          (Except.ok ⟨e.challenge_data,
            str "تم إيجاد تحدي برمجي سابق بعد إكمال " ++
            (toString (challenge_milestone sess.completed_lessons.length)).data ++
            str " دروس", true⟩, st)) ∧
      (st.coding_quizzes.lookup (challenge_cache_key sess.session_id
          (challenge_milestone sess.completed_lessons.length)) = none →
        generate_coding_challenge_endpoint st ts resp =
          (Except.ok ⟨generate_coding_challenge sess.language
              ((challenge_milestone sess.completed_lessons.length : Nat) : Int) ts resp,
            str "تم إنشاء تحدي برمجي جديد بعد إكمال " ++
            (toString (challenge_milestone sess.completed_lessons.length)).data ++
            str " دروس", false⟩,
           { st with coding_quizzes :=
              (challenge_cache_key sess.session_id
                  (challenge_milestone sess.completed_lessons.length),
               ⟨generate_coding_challenge sess.language
                  ((challenge_milestone sess.completed_lessons.length : Nat) : Int) ts resp,
                sess.session_id⟩) :: st.coding_quizzes }))) ∧
    challenge_milestone 4 = 4 ∧ challenge_milestone 5 = 4 ∧ challenge_milestone 6 = 4 ∧
    challenge_milestone 7 = 4 ∧ challenge_milestone 8 = 8 := by
  refine ⟨?_, ?_, rfl, rfl, rfl, rfl, rfl⟩
  · intro hlt
    simp only [generate_coding_challenge_endpoint, hs, if_pos hlt]
  · intro hge
    have hnlt : ¬ sess.completed_lessons.length < 4 := Nat.not_lt.mpr hge
    constructor
    · intro e he
      simp only [generate_coding_challenge_endpoint, hs, if_neg hnlt, he]
    · intro he
      simp only [generate_coding_challenge_endpoint, hs, if_neg hnlt, he]

/-- C6 witness: a session with five completed lessons and an empty
challenge cache gets a freshly generated challenge for milestone 4. -/
theorem c6_challenge_milestone_witness :
    4 ≤ sessC6.completed_lessons.length ∧
    generate_coding_challenge_endpoint stC6 1 none =
      (Except.ok ⟨generate_coding_challenge (str "Python") 4 1 none,
        str "تم إنشاء تحدي برمجي جديد بعد إكمال " ++ (toString (4 : Nat)).data ++ str " دروس",
        false⟩,
       ⟨some sessC6, [],
        [(challenge_cache_key (str "session_1.0") 4,
          ⟨generate_coding_challenge (str "Python") 4 1 none, str "session_1.0"⟩)]⟩) :=
  ⟨by decide, ((c6_challenge_milestone stC6 sessC6 1 none rfl).2.1 (by decide)).2 rfl⟩

/-- C9: `GET /lesson/{n}` fails with 404 when no session is active;
with an active session it fails with 403 when `n` exceeds
`current_lesson`, then with 404 when `n` exceeds the curriculum length,
and otherwise (for a real lesson number `n ≥ 1`) succeeds with lesson
`n`'s curriculum info and freshly generated content (the reply consumed
on this very request), leaving the store unchanged. -/
theorem c9_lesson_gating (st : Storage) (n : Int) (contentResp : Option Str) :
    (st.current_session = none →
      get_lesson st n contentResp =
        (Except.error ⟨404, str "No active session. Please select a language first."⟩, st)) ∧
    (∀ sess cfs ls, st.current_session = some sess →
      sess.curriculum = Json.jobj cfs →
      cfs.lookup (str "lessons") = some (Json.jarr ls) →
      ((sess.current_lesson < n →
        get_lesson st n contentResp =
          (Except.error ⟨403, str "Complete previous lessons first"⟩, st)) ∧
       (n ≤ sess.current_lesson → (ls.length : Int) < n →
        get_lesson st n contentResp =
          (Except.error ⟨404, str "Lesson " ++ (toString n).data ++ str " not found"⟩, st)) ∧
       (n ≤ sess.current_lesson → n ≤ (ls.length : Int) → 1 ≤ n →
        ∀ ifs, ls[(n - 1).toNat]? = some (Json.jobj ifs) →
        get_lesson st n contentResp =
          (Except.ok ⟨n,
            (ifs.lookup (str "title")).getD Json.null,
            (ifs.lookup (str "description")).getD Json.null,
            (ifs.lookup (str "objectives")).getD (Json.jarr []),
            generate_lesson_content sess.language n
              ((ifs.lookup (str "title")).getD
                (Json.jstr (str "الدرس " ++ (toString n).data))) contentResp,
            sess.language⟩, st)))) := by
  constructor
  · intro h
    simp only [get_lesson, h]
  · intro sess cfs ls hs hc hl
    have hcfs : cfs ≠ [] := by
      intro h
      rw [h] at hl
      simp [List.lookup] at hl
    have htru : pyTruthy (Json.jobj cfs) = true := by simp [pyTruthy, hcfs]
    have hkey : pyHasKey (Json.jobj cfs) (str "lessons") = true := by simp [pyHasKey, hl]
    have hguard : ¬¬(pyTruthy (Json.jobj cfs) = true ∧
        pyHasKey (Json.jobj cfs) (str "lessons") = true) := not_not_intro ⟨htru, hkey⟩
    refine ⟨?_, ?_, ?_⟩
    · intro hlt
      simp only [get_lesson, hs, if_pos hlt]
    · intro hle hgt
      simp only [get_lesson, hs, if_neg (not_lt.mpr hle), hc,
        if_neg hguard, pySubscr, hl, pyLen, if_pos hgt]
    · intro hle hlen h1 ifs hifs
      have hidx : pySeqIndex (Json.jarr ls) (n - 1) = some (Json.jobj ifs) := by
        simp only [pySeqIndex, pyIndex, if_pos (by omega : (0 : Int) ≤ n - 1), hifs]
      simp only [get_lesson, hs, if_neg (not_lt.mpr hle), hc,
        if_neg hguard, pySubscr, hl, pyLen,
        if_neg (not_lt.mpr hlen), hidx]

/-- C9 witness: fetching lesson 1 of a fresh fallback-curriculum
session succeeds with the first lesson's info. -/
theorem c9_lesson_gating_witness :
    (1 : Int) ≤ sessW.current_lesson ∧
    get_lesson stW 1 none =
      (Except.ok ⟨1, Json.jstr t1,
        Json.jstr (str "تعلم " ++ t1 ++ str " في لغة " ++ str "Python"),
        Json.jarr
          [Json.jstr (str "فهم أساسيات " ++ t1),
           Json.jstr (str "تطبيق " ++ t1 ++ str " عملياً"),
           Json.jstr (str "حل المشاكل باستخدام " ++ t1)],
        generate_lesson_content (str "Python") 1 (Json.jstr t1) none,
        str "Python"⟩, stW) :=
  ⟨by decide,
   ((c9_lesson_gating stW 1 none).2 sessW _ _ rfl rfl rfl).2.2
     (by decide) (by decide) (by decide) (fallbackLessonFields 1 t1) rfl⟩

/-- C10 counterexample: with an active 14-lesson session, requesting
lesson −20 passes both guards but the negative index is out of range,
so the handler fails with a 500 instead of returning content for a
lesson counted from the end — refuting the claim's universally
quantified success for every `n ≤ 0`. -/
theorem c10_counterexample :
    get_lesson stW (-20) none =
      (Except.error ⟨500, str "Error fetching lesson: "⟩, stW) := rfl

/-- C10 (amended): for `n ≤ 0` with an active session the 403 and 404
checks are both false; when `1 - len ≤ n` the handler indexes the
lesson list at `n - 1` by Python negative indexing and serves the
lesson `len + n` counted from the end (`n = 0` gives the last lesson),
and when `n < 1 - len` the index is out of range and the request fails
with a 500 (still neither 403 nor 404). -/
theorem c10_negative_lesson (st : Storage) (n : Int) (contentResp : Option Str)
    (sess : Session) (cfs : List (Str × Json)) (ls : List Json)
    (hs : st.current_session = some sess)
    (hc : sess.curriculum = Json.jobj cfs)
    (hl : cfs.lookup (str "lessons") = some (Json.jarr ls))
    (hcur : 1 ≤ sess.current_lesson)
    (hn : n ≤ 0) :
    ¬ (sess.current_lesson < n) ∧
    ¬ ((ls.length : Int) < n) ∧
    (1 - (ls.length : Int) ≤ n →
      ∀ ifs, ls[(n - 1 + ls.length).toNat]? = some (Json.jobj ifs) →
      get_lesson st n contentResp =
        (Except.ok ⟨n,
          (ifs.lookup (str "title")).getD Json.null,
          (ifs.lookup (str "description")).getD Json.null,
          (ifs.lookup (str "objectives")).getD (Json.jarr []),
          generate_lesson_content sess.language n
            ((ifs.lookup (str "title")).getD
              (Json.jstr (str "الدرس " ++ (toString n).data))) contentResp,
          sess.language⟩, st)) ∧
    (n < 1 - (ls.length : Int) →
      get_lesson st n contentResp =
        (Except.error ⟨500, str "Error fetching lesson: "⟩, st)) := by
  have hcfs : cfs ≠ [] := by
    intro h
    rw [h] at hl
    simp [List.lookup] at hl
  have htru : pyTruthy (Json.jobj cfs) = true := by simp [pyTruthy, hcfs]
  have hkey : pyHasKey (Json.jobj cfs) (str "lessons") = true := by simp [pyHasKey, hl]
  have hguard : ¬¬(pyTruthy (Json.jobj cfs) = true ∧
      pyHasKey (Json.jobj cfs) (str "lessons") = true) := not_not_intro ⟨htru, hkey⟩
  have hnotlt : ¬ (sess.current_lesson < n) := by omega
  have hnotlen : ¬ ((ls.length : Int) < n) := by
    have : (0 : Int) ≤ (ls.length : Int) := Int.ofNat_nonneg _
    omega
  refine ⟨hnotlt, hnotlen, ?_, ?_⟩
  · intro hlo ifs hifs
    have hidx : pySeqIndex (Json.jarr ls) (n - 1) = some (Json.jobj ifs) := by
      simp only [pySeqIndex, pyIndex, if_neg (by omega : ¬ (0 : Int) ≤ n - 1),
        if_pos (by omega : (0 : Int) ≤ n - 1 + (ls.length : Int)), hifs]
    simp only [get_lesson, hs, if_neg hnotlt, hc, if_neg hguard,
      pySubscr, hl, pyLen, if_neg hnotlen, hidx]
  · intro hfar
    have hidx : pySeqIndex (Json.jarr ls) (n - 1) = none := by
      simp only [pySeqIndex, pyIndex, if_neg (by omega : ¬ (0 : Int) ≤ n - 1),
        if_neg (by omega : ¬ (0 : Int) ≤ n - 1 + (ls.length : Int))]
    simp only [get_lesson, hs, if_neg hnotlt, hc, if_neg hguard,
      pySubscr, hl, pyLen, if_neg hnotlen, hidx]

/-- C10 witness: fetching lesson 0 serves the last (fourteenth) lesson
of the fallback curriculum. -/
theorem c10_negative_lesson_witness :
    (0 : Int) ≤ 0 ∧
    get_lesson stW 0 none =
      (Except.ok ⟨0, Json.jstr t14,
        Json.jstr (str "تعلم " ++ t14 ++ str " في لغة " ++ str "Python"),
        Json.jarr
          [Json.jstr (str "فهم أساسيات " ++ t14),
           Json.jstr (str "تطبيق " ++ t14 ++ str " عملياً"),
           Json.jstr (str "حل المشاكل باستخدام " ++ t14)],
        generate_lesson_content (str "Python") 0 (Json.jstr t14) none,
        str "Python"⟩, stW) :=
  ⟨by decide,
   (c10_negative_lesson stW 0 none sessW _ _ rfl rfl rfl (by decide) (by decide)).2.2.1
     (by decide) (fallbackLessonFields 14 t14) rfl⟩

/-- A nonnegative in-range index into a list always succeeds. -/
theorem pyIndex_pos (xs : List Json) (i : Int) (h0 : 0 ≤ i) (hlt : i < (xs.length : Int)) :
    ∃ x, pyIndex xs i = some x ∧ xs[i.toNat]? = some x := by
  have hn : i.toNat < xs.length := by omega
  refine ⟨xs[i.toNat], ?_, List.getElem?_eq_getElem hn⟩
  simp [pyIndex, if_pos h0, List.getElem?_eq_getElem hn]

/-- Element-wise unfolding of the match counter. -/
theorem matchCount_cons (a : Int) (rest : List Int) (q : Json) (tail : List Json) :
    matchCount (a :: rest) (q :: tail) =
      (if answerMatches a q then 1 else 0) + matchCount rest tail := by
  simp only [matchCount, List.zip_cons_cons]
  by_cases hm : answerMatches a q = true
  · rw [List.filter_cons_of_pos (by exact hm), if_pos hm]
    simp only [List.length_cons]
    omega
  · rw [List.filter_cons_of_neg (by simpa using hm), if_neg (by simpa using hm)]
    omega

/-- The grading loop over all-object questions never raises, counts
exactly the element-wise matches of the answers against the questions
from offset `i`, and produces one result entry per compared pair. -/
theorem gradeLoop_spec (answers : List Int) :
    ∀ (qs : List Json) (i : Nat), (∀ q ∈ qs, isObjB q = true) →
      ∃ es, gradeLoop answers qs i = some (matchCount answers (qs.drop i), es) ∧
        es.length = min answers.length (qs.length - i) := by
  induction answers with
  | nil =>
    intro qs i hobj
    exact ⟨[], rfl, by simp⟩
  | cons a rest ih =>
    intro qs i hobj
    by_cases hi : i < qs.length
    · have hget : qs[i]? = some qs[i] := List.getElem?_eq_getElem hi
      have hmem : qs[i] ∈ qs := List.getElem_mem hi
      have hqobj := hobj _ hmem
      obtain ⟨qfs, hqfs⟩ : ∃ qfs, qs[i] = Json.jobj qfs := by
        cases hq : qs[i] with
        | jobj fs => exact ⟨fs, rfl⟩
        | null => rw [hq] at hqobj; simp [isObjB] at hqobj
        | jbool b => rw [hq] at hqobj; simp [isObjB] at hqobj
        | jnum m e => rw [hq] at hqobj; simp [isObjB] at hqobj
        | jstr s => rw [hq] at hqobj; simp [isObjB] at hqobj
        | jarr xs => rw [hq] at hqobj; simp [isObjB] at hqobj
      obtain ⟨es, hrec, hlen⟩ := ih qs (i + 1) hobj
      have hdropc : qs.drop i = qs[i] :: qs.drop (i + 1) := List.drop_eq_getElem_cons hi
      have hmc : matchCount (a :: rest) (qs.drop i) =
          (if answerMatches a (Json.jobj qfs) then 1 else 0) +
            matchCount rest (qs.drop (i + 1)) := by
        rw [hdropc, hqfs, matchCount_cons]
      refine ⟨⟨i + 1, (qfs.lookup (str "question")).getD (Json.jstr []), a,
        (qfs.lookup (str "correct_answer")).getD (Json.jnum 0 0),
        pyIntEq a ((qfs.lookup (str "correct_answer")).getD (Json.jnum 0 0)),
        (qfs.lookup (str "explanation")).getD
          (Json.jstr (str "لا يوجد شرح متاح"))⟩ :: es, ?_, ?_⟩
      · simp only [gradeLoop, if_pos hi, hget, hqfs, hrec, hmc]
        have hmatch : answerMatches a (Json.jobj qfs) =
            pyIntEq a ((qfs.lookup (str "correct_answer")).getD (Json.jnum 0 0)) := rfl
        by_cases hm : pyIntEq a ((qfs.lookup (str "correct_answer")).getD (Json.jnum 0 0)) = true
        · rw [hmatch, if_pos hm, if_pos hm]
          have : matchCount rest (qs.drop (i + 1)) + 1 =
              1 + matchCount rest (qs.drop (i + 1)) := by omega
          rw [this]
        · rw [hmatch, if_neg (by simpa using hm), if_neg (by simpa using hm)]
          have : matchCount rest (qs.drop (i + 1)) =
              0 + matchCount rest (qs.drop (i + 1)) := by omega
          rw [← this]
      · simp only [List.length_cons]
        omega
    · obtain ⟨es, hrec, hlen⟩ := ih qs (i + 1) hobj
      have hd1 : qs.drop i = [] := List.drop_eq_nil_of_le (by omega)
      have hd2 : qs.drop (i + 1) = [] := List.drop_eq_nil_of_le (by omega)
      rw [hd2] at hrec
      refine ⟨es, ?_, ?_⟩
      · simp only [gradeLoop, if_neg hi, hrec, hd1]
        simp [matchCount]
      · omega

/-- Whatever `submit_quiz` answers, the stored session afterwards is
the old session (on any error or an ok result with a failing grade) or
the pass-updated session (an ok result with a passing grade). -/
theorem submit_quiz_result_session (st : Storage) (sess : Session) (n : Int)
    (answers : List Int) (resp : Option Str) (hs : st.current_session = some sess) :
    (submit_quiz st n answers resp).2.current_session =
      (match (submit_quiz st n answers resp).1 with
       | Except.ok r => some (if r.passed then passUpdate sess n else sess)
       | Except.error _ => some sess) := by
  rcases hsq : submit_quiz st n answers resp with ⟨res, st'⟩
  simp only [hsq]
  simp only [submit_quiz, hs] at hsq
  repeat' split at hsq
  all_goals injection hsq with h1 h2
  all_goals subst h1
  all_goals subst h2
  all_goals try exact hs
  all_goals try rfl
  all_goals refine congrArg some ?_
  all_goals split
  all_goals first
    | rfl
    | exact absurd (by assumption) (by assumption)

/-- Full characterization of a cached, nonempty submission: the grade,
the pass flag, the result payload and the conditional progress update,
with the store's quiz cache untouched. -/
theorem submit_quiz_cached_ok (st : Storage) (sess : Session) (cfs : List (Str × Json))
    (ls : List Json) (n : Int) (answers : List Int) (resp : Option Str)
    (qfs : List (Str × Json)) (qs : List Json)
    (hs : st.current_session = some sess)
    (hc : sess.curriculum = Json.jobj cfs)
    (hl : cfs.lookup (str "lessons") = some (Json.jarr ls))
    (h1 : 1 ≤ n) (h2 : n ≤ (ls.length : Int))
    (hcache : st.quiz_cache.lookup (quiz_cache_key sess.session_id n) = some (Json.jobj qfs))
    (hq : qfs.lookup (str "questions") = some (Json.jarr qs))
    (hqs : qs.isEmpty = false)
    (hans : answers.isEmpty = false)
    (hobj : ∀ q ∈ qs, isObjB q = true) :
    ∃ results : List GradeEntry, results.isEmpty = false ∧
      submit_quiz st n answers resp =
        (Except.ok
          ⟨(matchCount answers qs : ℚ) / (qs.length : ℚ) * 100,
           decide ((70 : ℚ) ≤ (matchCount answers qs : ℚ) / (qs.length : ℚ) * 100),
           matchCount answers qs, qs.length, results,
           (if decide ((70 : ℚ) ≤ (matchCount answers qs : ℚ) / (qs.length : ℚ) * 100) then
              str "تهانينا! لقد نجحت في الاختبار"
            else str "للأسف، لم تجتز الاختبار. حاول مرة أخرى"),
           (if decide ((70 : ℚ) ≤ (matchCount answers qs : ℚ) / (qs.length : ℚ) * 100) then
              some ((passUpdate sess n).current_lesson)
            else none),
           true⟩,
         ⟨some (if decide ((70 : ℚ) ≤ (matchCount answers qs : ℚ) / (qs.length : ℚ) * 100) then
              passUpdate sess n
            else sess),
          st.quiz_cache, st.coding_quizzes⟩) := by
  obtain ⟨info, hidx, _⟩ := pyIndex_pos ls (n - 1) (by omega) (by omega)
  have hseq : pySeqIndex (Json.jarr ls) (n - 1) = some info := by
    simp [pySeqIndex, hidx]
  obtain ⟨results, hgrade, hlen⟩ := gradeLoop_spec answers qs 0 hobj
  rw [List.drop_zero] at hgrade
  have hres : results.isEmpty = false := by
    have hl1 : answers ≠ [] := by simpa [List.isEmpty_iff] using hans
    have hl2 : qs ≠ [] := by simpa [List.isEmpty_iff] using hqs
    have : 0 < results.length := by
      rw [hlen]
      have := List.length_pos.mpr hl1
      have := List.length_pos.mpr hl2
      omega
    simpa [List.isEmpty_iff, ← List.length_pos_iff_ne_nil]
  refine ⟨results, hres, ?_⟩
  have hne : ¬ ((ls.length : Int) < n) := by omega
  have htr : ¬ ¬ pyTruthy (Json.jarr qs) = true := by
    simp [pyTruthy, hqs]
  simp only [submit_quiz, hs, hc, pySubscr, hl, pyLen, if_neg hne, hseq, hcache, pyGetD,
    Option.getD, hq, if_neg htr, hgrade, hres, Bool.false_eq_true, if_neg, ite_false]
  by_cases hp : (70 : ℚ) ≤ (matchCount answers qs : ℚ) / (qs.length : ℚ) * 100
  · simp [hp]
  · simp [hp]

/-- An empty submission against a cached quiz fails with a 400 and
leaves the store unchanged. -/
theorem submit_quiz_cached_empty (st : Storage) (sess : Session) (cfs : List (Str × Json))
    (ls : List Json) (n : Int) (resp : Option Str)
    (qfs : List (Str × Json)) (qs : List Json)
    (hs : st.current_session = some sess)
    (hc : sess.curriculum = Json.jobj cfs)
    (hl : cfs.lookup (str "lessons") = some (Json.jarr ls))
    (h1 : 1 ≤ n) (h2 : n ≤ (ls.length : Int))
    (hcache : st.quiz_cache.lookup (quiz_cache_key sess.session_id n) = some (Json.jobj qfs))
    (hq : qfs.lookup (str "questions") = some (Json.jarr qs))
    (hqs : qs.isEmpty = false) :
    submit_quiz st n [] resp =
      (Except.error ⟨400, str "No valid answers to evaluate"⟩,
       ⟨st.current_session, st.quiz_cache, st.coding_quizzes⟩) := by
  obtain ⟨info, hidx, _⟩ := pyIndex_pos ls (n - 1) (by omega) (by omega)
  have hseq : pySeqIndex (Json.jarr ls) (n - 1) = some info := by
    simp [pySeqIndex, hidx]
  have hne : ¬ ((ls.length : Int) < n) := by omega
  have htr : ¬ ¬ pyTruthy (Json.jarr qs) = true := by
    simp [pyTruthy, hqs]
  have hgrade : gradeLoop [] qs 0 = some (0, []) := rfl
  simp only [submit_quiz, hs, hc, pySubscr, hl, pyLen, if_neg hne, hseq, hcache, pyGetD,
    Option.getD, hq, if_neg htr, hgrade]
  simp

/-- C2 (amended): grading a nonempty submission against a cached,
nonempty question set compares answers element-wise over the prefix of
length `min (answers) (questions)` and returns
`score = matches / total * 100` with `passed = (score ≥ 70)`; an empty
submission instead fails with a 400. -/
theorem c2_quiz_grading (st : Storage) (sess : Session) (cfs : List (Str × Json))
    (ls : List Json) (n : Int) (answers : List Int) (resp : Option Str)
    (qfs : List (Str × Json)) (qs : List Json)
    (hs : st.current_session = some sess)
    (hc : sess.curriculum = Json.jobj cfs)
    (hl : cfs.lookup (str "lessons") = some (Json.jarr ls))
    (h1 : 1 ≤ n) (h2 : n ≤ (ls.length : Int))
    (hcache : st.quiz_cache.lookup (quiz_cache_key sess.session_id n) = some (Json.jobj qfs))
    (hq : qfs.lookup (str "questions") = some (Json.jarr qs))
    (hqs : qs.isEmpty = false)
    (hobj : ∀ q ∈ qs, isObjB q = true) :
    (answers.isEmpty = false →
      ∃ r, (submit_quiz st n answers resp).1 = Except.ok r ∧
        r.score = (matchCount answers qs : ℚ) / (qs.length : ℚ) * 100 ∧
        r.passed = decide ((70 : ℚ) ≤ r.score) ∧
        r.correct_answers = matchCount answers qs ∧
        r.total_questions = qs.length) ∧
    (answers = [] →
      (submit_quiz st n answers resp).1 =
        Except.error ⟨400, str "No valid answers to evaluate"⟩) := by
  constructor
  · intro hans
    obtain ⟨results, hres, heq⟩ :=
      submit_quiz_cached_ok st sess cfs ls n answers resp qfs qs hs hc hl h1 h2 hcache hq
        hqs hans hobj
    refine ⟨_, congrArg Prod.fst heq, ?_, ?_, ?_, ?_⟩ <;> rfl
  · intro hans
    subst hans
    have heq := submit_quiz_cached_empty st sess cfs ls n resp qfs qs hs hc hl h1 h2 hcache
      hq hqs
    rw [congrArg Prod.fst heq]

/-- C2 counterexample: with a cached five-question quiz for lesson 1,
submitting an empty answer list does not return a score of 0 out of 5 —
it fails with a 400 — so the grading contract does not hold for every
submitted answer list. -/
theorem c2_counterexample :
    stW.quiz_cache.lookup (quiz_cache_key (str "session_1.0") 1) = some qdoc5 ∧
    (submit_quiz stW 1 [] none).1 =
      Except.error ⟨400, str "No valid answers to evaluate"⟩ :=
  ⟨rfl, rfl⟩

/-- C2 witness: four correct answers out of five cached questions score
`4/5*100`. -/
theorem c2_quiz_grading_witness :
    ([0, 1, 2, 3, 1] : List Int).isEmpty = false ∧
    (∃ r, (submit_quiz stW 1 [0, 1, 2, 3, 1] none).1 = Except.ok r ∧
      r.score = (matchCount [0, 1, 2, 3, 1] qsW : ℚ) / (qsW.length : ℚ) * 100 ∧
      r.passed = decide ((70 : ℚ) ≤ r.score) ∧
      r.correct_answers = matchCount [0, 1, 2, 3, 1] qsW ∧
      r.total_questions = qsW.length) :=
  ⟨rfl,
   (c2_quiz_grading stW sessW _ _ 1 [0, 1, 2, 3, 1] none _ qsW rfl rfl rfl (by decide)
     (by decide) rfl rfl rfl (by decide)).1 rfl⟩

/-- Applying the pass update twice for the same lesson is the same as
applying it once. -/
theorem passUpdate_idem (sess : Session) (n : Int) :
    passUpdate (passUpdate sess n) n = passUpdate sess n := by
  have hmem : n ∈ (if n ∈ sess.completed_lessons then sess.completed_lessons
      else sess.completed_lessons ++ [n]) := by
    by_cases h : n ∈ sess.completed_lessons
    · rw [if_pos h]; exact h
    · rw [if_neg h]; simp
  have hcur : ¬ ((n = if n = sess.current_lesson ∧ n < 14 then sess.current_lesson + 1
      else sess.current_lesson) ∧ n < 14) := by
    by_cases h : n = sess.current_lesson ∧ n < 14
    · rw [if_pos h]
      intro hcontra
      omega
    · rw [if_neg h]
      exact h
  simp only [passUpdate, if_pos hmem, if_neg hcur]

/-- C3: a passing submission stores the pass-updated session: the
lesson is appended to `completed_lessons` only when absent and
`current_lesson` advances exactly when the lesson equals it and is
below 14; a second passing submission for the same lesson changes
nothing (no duplicate, no further advance). -/
theorem c3_pass_progress (st : Storage) (sess : Session) (n : Int) (a1 a2 : List Int)
    (resp1 resp2 : Option Str)
    (hs : st.current_session = some sess)
    (hp1 : isOkPassed (submit_quiz st n a1 resp1).1 = true) :
    (submit_quiz st n a1 resp1).2.current_session = some (passUpdate sess n) ∧
    (passUpdate sess n).completed_lessons =
      (if n ∈ sess.completed_lessons then sess.completed_lessons
       else sess.completed_lessons ++ [n]) ∧
    (passUpdate sess n).current_lesson =
      (if n = sess.current_lesson ∧ n < 14 then sess.current_lesson + 1
       else sess.current_lesson) ∧
    passUpdate (passUpdate sess n) n = passUpdate sess n ∧
    (isOkPassed (submit_quiz (submit_quiz st n a1 resp1).2 n a2 resp2).1 = true →
      (submit_quiz (submit_quiz st n a1 resp1).2 n a2 resp2).2.current_session =
        (submit_quiz st n a1 resp1).2.current_session) := by
  have hsl := submit_quiz_result_session st sess n a1 resp1 hs
  have hfirst : (submit_quiz st n a1 resp1).2.current_session = some (passUpdate sess n) := by
    cases hres : (submit_quiz st n a1 resp1).1 with
    | error e =>
      rw [hres] at hp1
      simp [isOkPassed] at hp1
    | ok r =>
      have hp : r.passed = true := by
        rw [hres] at hp1
        simpa [isOkPassed] using hp1
      rw [hres] at hsl
      simpa [hp] using hsl
  refine ⟨hfirst, rfl, rfl, passUpdate_idem sess n, ?_⟩
  intro hp2
  have hsl2 := submit_quiz_result_session (submit_quiz st n a1 resp1).2 (passUpdate sess n)
    n a2 resp2 hfirst
  cases hres2 : (submit_quiz (submit_quiz st n a1 resp1).2 n a2 resp2).1 with
  | error e =>
    rw [hres2] at hp2
    simp [isOkPassed] at hp2
  | ok r =>
    have hp : r.passed = true := by
      rw [hres2] at hp2
      simpa [isOkPassed] using hp2
    rw [hres2] at hsl2
    rw [hfirst]
    simpa [hp, passUpdate_idem] using hsl2

/-- C3 witness: passing lesson 1 with 4/5 correct advances the fresh
session to lesson 2 and records lesson 1 as completed. -/
theorem c3_pass_progress_witness :
    isOkPassed (submit_quiz stW 1 [0, 1, 2, 3, 1] none).1 = true ∧
    (submit_quiz stW 1 [0, 1, 2, 3, 1] none).2.current_session = some (passUpdate sessW 1) ∧
    passUpdate sessW 1 = ⟨str "session_1.0", str "Python",
      fallback_curriculum (str "Python"), 2, [1]⟩ := by
  have hp1 : isOkPassed (submit_quiz stW 1 [0, 1, 2, 3, 1] none).1 = true := by
    obtain ⟨results, hres, heq⟩ :=
      submit_quiz_cached_ok stW sessW _ _ 1 [0, 1, 2, 3, 1] none _ qsW rfl rfl rfl
        (by decide) (by decide) rfl rfl rfl rfl (by decide)
    rw [congrArg Prod.fst heq]
    simp only [isOkPassed]
    rw [show matchCount [0, 1, 2, 3, 1] qsW = 4 from by decide,
      show qsW.length = 5 from rfl]
    norm_num
  exact ⟨hp1, (c3_pass_progress stW sessW 1 [0, 1, 2, 3, 1] [] none none rfl hp1).1, rfl⟩

/-- Selecting a language always installs a session at lesson 1. -/
theorem select_language_cur (st : Storage) (language : Str) (resp : Option Str) (ts : Str) :
    storCur (select_language st language resp ts).2 = 1 := by
  simp only [select_language]
  repeat' split
  all_goals rfl

/-- One submission moves `current_lesson` either nowhere or exactly one
step up from strictly below 14. -/
theorem submit_quiz_cur_step (st : Storage) (n : Int) (answers : List Int) (resp : Option Str) :
    storCur (submit_quiz st n answers resp).2 = storCur st ∨
    (storCur (submit_quiz st n answers resp).2 = storCur st + 1 ∧ storCur st < 14) := by
  cases hs : st.current_session with
  | none =>
    left
    have hpair : submit_quiz st n answers resp =
        (Except.error ⟨404, str "No active session. Please select a language first."⟩, st) := by
      simp [submit_quiz, hs]
    rw [congrArg Prod.snd hpair]
  | some sess =>
    have hsl := submit_quiz_result_session st sess n answers resp hs
    cases hres : (submit_quiz st n answers resp).1 with
    | error e =>
      rw [hres] at hsl
      left
      simp [storCur, hsl, hs]
    | ok r =>
      rw [hres] at hsl
      by_cases hp : r.passed = true
      · have hsl' : (submit_quiz st n answers resp).2.current_session =
            some (passUpdate sess n) := by simpa [hp] using hsl
        by_cases hc : n = sess.current_lesson ∧ n < 14
        · right
          constructor
          · simp [storCur, hsl', passUpdate, if_pos hc, hs]
          · simp only [storCur, hs]
            omega
        · left
          simp [storCur, hsl', passUpdate, if_neg hc, hs]
      · have hsl' : (submit_quiz st n answers resp).2.current_session = some sess := by
          simpa [hp] using hsl
        left
        simp [storCur, hsl', hs]

theorem runSubmits_append (st : Storage) (l1 l2 : List SubmitCall) :
    runSubmits st (l1 ++ l2) = runSubmits (runSubmits st l1) l2 := by
  induction l1 generalizing st with
  | nil => rfl
  | cons c rest ih =>
    simp only [List.cons_append, runSubmits]
    exact ih _

/-- Over any submission sequence `current_lesson` never decreases and
never escapes an upper bound of 14. -/
theorem runSubmits_mono (l : List SubmitCall) :
    ∀ st : Storage, storCur st ≤ storCur (runSubmits st l) ∧
      (storCur st ≤ 14 → storCur (runSubmits st l) ≤ 14) := by
  induction l with
  | nil => intro st; exact ⟨le_refl _, fun h => h⟩
  | cons c rest ih =>
    intro st
    have hstep := submit_quiz_cur_step st c.lesson_id c.answers c.resp
    have ihs := ih (submit_quiz st c.lesson_id c.answers c.resp).2
    simp only [runSubmits]
    rcases hstep with h | ⟨h, hlt⟩
    · exact ⟨by omega, fun h14 => ihs.2 (by omega)⟩
    · exact ⟨by omega, fun h14 => ihs.2 (by omega)⟩

/-- C4: starting from language selection (`current_lesson = 1`), the
unlocked lesson never decreases and never exceeds 14 across any
sequence of quiz submissions within the session. -/
theorem c4_current_monotone_capped (st : Storage) (language : Str) (resp : Option Str)
    (ts : Str) (calls extra : List SubmitCall) :
    1 ≤ storCur (runSubmits (select_language st language resp ts).2 calls) ∧
    storCur (runSubmits (select_language st language resp ts).2 calls) ≤ 14 ∧
    storCur (runSubmits (select_language st language resp ts).2 calls) ≤
      storCur (runSubmits (select_language st language resp ts).2 (calls ++ extra)) := by
  have h0 := select_language_cur st language resp ts
  have hm := runSubmits_mono calls (select_language st language resp ts).2
  refine ⟨by omega, hm.2 (by omega), ?_⟩
  rw [runSubmits_append]
  exact (runSubmits_mono extra _).1

/-- Writing a fresh key to a dict leaves every other binding visible. -/
theorem dictSet_lookup_ne (m : List (Str × Json)) (k k' : Str) (v v' : Json)
    (h : m.lookup k = some v) (hne : m.lookup k' = none) :
    (dictSet m k' v').lookup k = some v := by
  have hkk : (k == k') = false := by
    by_cases hb : (k == k') = true
    · have heq : k = k' := by simpa using hb
      rw [heq, hne] at h
      cases h
    · simpa using hb
  simp [dictSet, List.lookup, hkk, h]

/-- Fetching lesson content never changes the store. -/
theorem get_lesson_state (st : Storage) (n : Int) (resp : Option Str) :
    (get_lesson st n resp).2 = st := by
  simp only [get_lesson]
  repeat' split
  all_goals rfl

/-- Submitting code never changes the store. -/
theorem submit_code_state (st : Storage) (code : Str) (cid : Str) (resp : Option Str) :
    (submit_code st code cid resp).2 = st := by
  simp only [submit_code]
  repeat' split
  all_goals rfl

/-- The challenge endpoint never touches the quiz cache or session. -/
theorem challenge_endpoint_state (st : Storage) (ts : Int) (resp : Option Str) :
    (generate_coding_challenge_endpoint st ts resp).2.quiz_cache = st.quiz_cache ∧
    (generate_coding_challenge_endpoint st ts resp).2.current_session = st.current_session := by
  simp only [generate_coding_challenge_endpoint]
  repeat' split
  all_goals exact ⟨rfl, rfl⟩

/-- Generating a quiz preserves every existing quiz-cache binding. -/
theorem generate_quiz_cache_preserve (st : Storage) (n : Int) (resp : Option Str)
    (k : Str) (v : Json) (h : st.quiz_cache.lookup k = some v) :
    (generate_quiz st n resp).2.quiz_cache.lookup k = some v := by
  simp only [generate_quiz]
  repeat' split
  all_goals try exact h
  all_goals exact dictSet_lookup_ne _ _ _ _ _ h (by assumption)

/-- Submitting a quiz preserves every existing quiz-cache binding. -/
theorem submit_quiz_cache_preserve (st : Storage) (n : Int) (answers : List Int)
    (resp : Option Str) (k : Str) (v : Json) (h : st.quiz_cache.lookup k = some v) :
    (submit_quiz st n answers resp).2.quiz_cache.lookup k = some v := by
  simp only [submit_quiz]
  repeat' split
  all_goals try exact h
  all_goals exact dictSet_lookup_ne _ _ _ _ _ h (by assumption)

/-- Every in-session request preserves every existing quiz-cache
binding. -/
theorem applyOp_cache_preserve (st : Storage) (op : Op) (k : Str) (v : Json)
    (h : st.quiz_cache.lookup k = some v) :
    (applyOp st op).quiz_cache.lookup k = some v := by
  cases op with
  | opLesson n resp =>
    simp only [applyOp, get_lesson_state]
    exact h
  | opQuiz n resp => exact generate_quiz_cache_preserve st n resp k v h
  | opSubmit n answers resp => exact submit_quiz_cache_preserve st n answers resp k v h
  | opChallenge ts resp =>
    simp only [applyOp, (challenge_endpoint_state st ts resp).1]
    exact h
  | opCode code cid resp =>
    simp only [applyOp, submit_code_state]
    exact h

theorem runOps_cache_preserve (k : Str) (v : Json) :
    ∀ (ops : List Op) (st : Storage), st.quiz_cache.lookup k = some v →
      (runOps st ops).quiz_cache.lookup k = some v := by
  intro ops
  induction ops with
  | nil => intro st h; exact h
  | cons op rest ih =>
    intro st h
    exact ih _ (applyOp_cache_preserve st op k v h)

/-- Once a question set is cached, no later step generates it again. -/
theorem genCount_zero_of_some (k : Str) (v : Json) :
    ∀ (ops : List Op) (st : Storage), st.quiz_cache.lookup k = some v →
      genCount st ops k = 0 := by
  intro ops
  induction ops with
  | nil => intro st _; rfl
  | cons op rest ih =>
    intro st h
    have hadd : addsKey st op k = false := by
      unfold addsKey
      rw [h]
      rfl
    have hrest := ih _ (applyOp_cache_preserve st op k v h)
    simp [genCount, hadd, hrest]

/-- The question set of any lesson is generated at most once per
session: over any request sequence, at most one step writes its
cache key. -/
theorem genCount_le_one (k : Str) :
    ∀ (ops : List Op) (st : Storage), genCount st ops k ≤ 1 := by
  intro ops
  induction ops with
  | nil => intro st; simp [genCount]
  | cons op rest ih =>
    intro st
    by_cases hadd : addsKey st op k = true
    · have hsome : ((applyOp st op).quiz_cache.lookup k).isSome = true := by
        have h2 := hadd
        simp only [addsKey, Bool.decide_and, Bool.and_eq_true, decide_eq_true_eq] at h2
        exact h2.2
      obtain ⟨v, hv⟩ := Option.isSome_iff_exists.mp hsome
      have := genCount_zero_of_some k v rest (applyOp st op) hv
      simp [genCount, hadd, this]
    · have hadd' : addsKey st op k = false := by
        simpa using hadd
      have := ih (applyOp st op)
      simp only [genCount, hadd', Bool.false_eq_true, if_false, Nat.zero_add]
      exact this

/-- A cached quiz is served back verbatim, marked `cached`, with the
store unchanged. -/
theorem generate_quiz_cached_hit (st : Storage) (sess : Session) (cfs : List (Str × Json))
    (ls : List Json) (n : Int) (v : Json) (ifs : List (Str × Json)) (resp : Option Str)
    (hs : st.current_session = some sess)
    (hc : sess.curriculum = Json.jobj cfs)
    (hl : cfs.lookup (str "lessons") = some (Json.jarr ls))
    (h1 : 1 ≤ n) (h2 : n ≤ (ls.length : Int))
    (hifs : ls[(n - 1).toNat]? = some (Json.jobj ifs))
    (hcache : st.quiz_cache.lookup (quiz_cache_key sess.session_id n) = some v) :
    generate_quiz st n resp =
      (Except.ok ⟨n, (ifs.lookup (str "title")).getD Json.null, v, true⟩, st) := by
  have hcfs : cfs ≠ [] := by
    intro h
    rw [h] at hl
    simp [List.lookup] at hl
  have htru : pyTruthy (Json.jobj cfs) = true := by simp [pyTruthy, hcfs]
  have hkey : pyHasKey (Json.jobj cfs) (str "lessons") = true := by simp [pyHasKey, hl]
  have hguard : ¬¬(pyTruthy (Json.jobj cfs) = true ∧
      pyHasKey (Json.jobj cfs) (str "lessons") = true) := not_not_intro ⟨htru, hkey⟩
  have hseq : pySeqIndex (Json.jarr ls) (n - 1) = some (Json.jobj ifs) := by
    simp only [pySeqIndex, pyIndex, if_pos (by omega : (0 : Int) ≤ n - 1), hifs]
  simp only [generate_quiz, hs, hc, if_neg hguard, pySubscr, hl, pyLen,
    if_neg (by omega : ¬ ((ls.length : Int) < n)), hseq, hcache]

/-- With the quiz cached, grading is independent of the model reply the
fallback-generation path would consume: the cached set is used. -/
theorem submit_quiz_cached_independent (st : Storage) (sess : Session) (n : Int)
    (answers : List Int) (resp resp' : Option Str) (v : Json)
    (hs : st.current_session = some sess)
    (hcache : st.quiz_cache.lookup (quiz_cache_key sess.session_id n) = some v) :
    submit_quiz st n answers resp = submit_quiz st n answers resp' := by
  simp only [submit_quiz, hs]
  cases hsub : pySubscr sess.curriculum (str "lessons") with
  | none => rfl
  | some lessonsVal =>
    dsimp only
    cases hlen : pyLen lessonsVal with
    | none => rfl
    | some L =>
      dsimp only
      by_cases hL : (L : Int) < n
      · simp [hL]
      · simp only [if_neg hL]
        cases hidx : pySeqIndex lessonsVal (n - 1) with
        | none => rfl
        | some info =>
          dsimp only
          simp only [hcache]

/-- C5: within one session (the `Op` request alphabet excludes language
selection), an existing quiz-cache binding survives every request
sequence, a cached quiz is served back identical and marked cached with
the store untouched, grading uses the cached set (the result does not
depend on the freshly-generated reply parameter), and the question set
of any lesson is generated at most once. -/
theorem c5_quiz_stability (st : Storage) (k : Str) (ops : List Op) :
    (∀ v, st.quiz_cache.lookup k = some v →
      (runOps st ops).quiz_cache.lookup k = some v) ∧
    (∀ sess cfs ls (n : Int) v ifs resp, st.current_session = some sess →
      sess.curriculum = Json.jobj cfs →
      cfs.lookup (str "lessons") = some (Json.jarr ls) →
      1 ≤ n → n ≤ (ls.length : Int) →
      ls[(n - 1).toNat]? = some (Json.jobj ifs) →
      st.quiz_cache.lookup (quiz_cache_key sess.session_id n) = some v →
      generate_quiz st n resp =
        (Except.ok ⟨n, (ifs.lookup (str "title")).getD Json.null, v, true⟩, st)) ∧
    (∀ sess (n : Int) answers resp resp' v, st.current_session = some sess →
      st.quiz_cache.lookup (quiz_cache_key sess.session_id n) = some v →
      submit_quiz st n answers resp = submit_quiz st n answers resp') ∧
    genCount st ops k ≤ 1 :=
  ⟨fun v hv => runOps_cache_preserve k v ops st hv,
   fun sess cfs ls n v ifs resp hs hc hl h1 h2 hifs hcache =>
     generate_quiz_cached_hit st sess cfs ls n v ifs resp hs hc hl h1 h2 hifs hcache,
   fun sess n answers resp resp' v hs hcache =>
     submit_quiz_cached_independent st sess n answers resp resp' v hs hcache,
   genCount_le_one k ops st⟩

/-- C5 witness: with the lesson-1 quiz cached, a fetch-then-submit
sequence keeps the binding, the fetch returns the cached set marked
cached, grading ignores the reply parameter, and no step regenerates
the set. -/
theorem c5_quiz_stability_witness :
    stW.quiz_cache.lookup (quiz_cache_key (str "session_1.0") 1) = some qdoc5 ∧
    (runOps stW [Op.opQuiz 1 none, Op.opSubmit 1 [0] none]).quiz_cache.lookup
      (quiz_cache_key (str "session_1.0") 1) = some qdoc5 ∧
    generate_quiz stW 1 none = (Except.ok ⟨1, Json.jstr t1, qdoc5, true⟩, stW) ∧
    submit_quiz stW 1 [0] none = submit_quiz stW 1 [0] (some badQuizResp) ∧
    genCount stW [Op.opQuiz 1 none, Op.opSubmit 1 [0] none]
      (quiz_cache_key (str "session_1.0") 1) ≤ 1 := by
  have hthm := c5_quiz_stability stW (quiz_cache_key (str "session_1.0") 1)
    [Op.opQuiz 1 none, Op.opSubmit 1 [0] none]
  exact ⟨rfl, hthm.1 qdoc5 rfl,
    hthm.2.1 sessW _ _ 1 qdoc5 (fallbackLessonFields 1 t1) none rfl rfl rfl (by decide)
      (by decide) rfl rfl,
    hthm.2.2.1 sessW 1 [0] none (some badQuizResp) qdoc5 rfl rfl,
    hthm.2.2.2⟩

end ArabicLearn
